import Mathlib

/-!
# Nexus (ipfs-orchestrator): delegator, node client and orchestrator

A shallow embedding of the Go sources

* `delegator/auth.go`      (`getUserFromJWT`)
* `delegator/engine.go`    (`NetworkContext`, `Redirect`, `NetworkStatus`)
* `ipfs/ipfs.go`           (`CreateNode`, `StopNode`, `waitForNode`)
* `orchestrator/orchestrator.go` (`New`, `NetworkUp`, `NetworkDown`)

Calls into collaborators (the JWT library, the Docker daemon, the file
system, the registry, the database) are answered by functions carried in an
environment record, and every call a function makes is written to a trace in
program order, so that "X is not called" and "X happens before Y" are
statements about that trace.
-/

namespace Nexus

/-! ## Go strings -/

/-- Go `strings.Split(s, sep)` for a non-empty separator, on character lists:
the text is cut at each leftmost non-overlapping occurrence of `sep`.
`skip` counts the characters of a matched separator still to be passed over,
`cur` is the current piece, reversed. -/
def splitChars (sep : List Char) : List Char → Nat → List Char → List (List Char)
  | [], _, cur => [cur.reverse]
  | _ :: cs, skip + 1, cur => splitChars sep cs skip cur
  | c :: cs, 0, cur =>
    if sep.isPrefixOf (c :: cs) then
      cur.reverse :: splitChars sep cs (sep.length - 1) []
    else
      splitChars sep cs 0 (c :: cur)

/-- Go `strings.Split(s, sep)` (non-empty `sep`). -/
def strings_Split (s sep : String) : List String :=
  (splitChars sep.data s.data 0 []).map String.mk

/-- Go `strings.Contains(s, substr)`. -/
def strings_Contains (s substr : String) : Bool :=
  s.data.tails.any (fun t => substr.data.isPrefixOf t)

/-! ## delegator/auth.go -/

/-- The two sentinel errors of `auth.go`. -/
inductive AuthError where
  | errNoAuth
  | errInvalidAuth
  deriving DecidableEq, Repr

/-- The text of an authentication error (`errors.New(...)`). -/
def AuthError.Error : AuthError → String
  | .errNoAuth => "no authentication provided"
  | .errInvalidAuth => "invalid authentication provided"

/-- A value of a JWT claim (`interface{}`): a string, or anything else. -/
inductive ClaimValue where
  | str (s : String)
  | nonString
  deriving DecidableEq, Repr

/-- The `Claims` of a parsed token: a `jwt.MapClaims`, or another
implementation of the `jwt.Claims` interface. -/
inductive Claims where
  | MapClaims (m : List (String × ClaimValue))
  | otherClaims
  deriving DecidableEq, Repr

/-- The fields of `jwt.Token` that `getUserFromJWT` reads. -/
structure Token where
  Claims : Claims
  Valid : Bool
  deriving DecidableEq, Repr

/-- An `http.Header`: canonical key and value, first match wins. -/
abbrev Header := List (String × String)

/-- Go `Header.Get(key)`: the value, or the empty string when there is none. -/
def Header.Get (h : Header) (key : String) : String :=
  (h.lookup key).getD ""

/-! ## Shared data: nodes and requests -/

/-- The host-side ports of a node (`ipfs.NodePorts`), as port strings. -/
structure NodePorts where
  Swarm : String
  API : String
  Gateway : String
  deriving DecidableEq, Repr

/-- Type `ipfs.NodeInfo`: the fields that the sources read and write. -/
structure NodeInfo where
  NetworkID : String
  JobID : String
  Ports : NodePorts
  DockerID : String
  ContainerName : String
  DataDir : String
  deriving DecidableEq, Repr

/-- What `r.Context().Value(keyNetwork)` holds: nothing, a value of another
type, or a `*ipfs.NodeInfo` (`none` being the nil pointer). -/
inductive CtxValue where
  | absent
  | otherType
  | nodeInfo (n : Option NodeInfo)
  deriving DecidableEq, Repr

/-- The part of `*http.Request` that the delegator reads. `URLParams` are the
route parameters that `chi` extracted from the path. -/
structure Request where
  Header : Header
  URLScheme : String
  RequestURI : String
  URLParams : List (String × String)
  ctxNetwork : CtxValue
  deriving DecidableEq, Repr

/-- Function `chi.URLParam(r, key)`: the route parameter, or the empty string. -/
def chi_URLParam (r : Request) (key : String) : String :=
  (r.URLParams.lookup key).getD ""

/-- Function `getUserFromJWT` of `auth.go`. `Parse` is `jwt.Parse` of the JWT
library, `K` the type of the key function. The result is Go's pair
`(user, err)`, `none` being the nil error. -/
def getUserFromJWT {K : Type} (Parse : String → K → Except String Token)
    (r : Request) (keyLookup : K) : String × Option AuthError :=
  let bearerString := r.Header.Get "Authorization"
  let splitToken := strings_Split bearerString "Bearer "
  match splitToken with
  | _ :: tokenString :: _ =>
    match Parse tokenString keyLookup with
    | .error _ => ("", some .errInvalidAuth)
    | .ok token =>
      match token.Claims, token.Valid with
      | .MapClaims claims, true =>
        match claims.lookup "id" with
        | some (.str user) =>
          if user = "" then ("", some .errInvalidAuth) else (user, none)
        | _ => ("", some .errInvalidAuth)
      | _, _ => ("", some .errInvalidAuth)
  | _ => ("", some .errNoAuth)

/-! ## delegator/engine.go -/

/-- A parsed `*url.URL`, kept as the text it was parsed from. -/
structure URL where
  raw : String
  deriving DecidableEq, Repr

/-- A `*httputil.ReverseProxy`. `inst` stands for the pointer: two proxies are
the same instance exactly when they have the same `inst`. -/
structure ReverseProxy where
  inst : Nat
  feature : String
  target : URL
  deriving DecidableEq, Repr

/-- One entry of the proxy cache. -/
structure cacheEntry where
  key : String
  proxy : ReverseProxy
  expiresAt : Nat
  deriving DecidableEq, Repr

/-- Modelled from the spec: the proxy cache of `delegator` (type `cache` with
`newCache`, `Get` and `Cache`, declared outside the given sources). Section
4.4: a map from key to proxy with an entry TTL; an entry is live while the
clock is before its `expires_at`. -/
structure cache where
  entries : List cacheEntry
  ttl : Nat
  deriving DecidableEq, Repr

/-- Modelled from the spec: `cache.Get(key)`, "returns the live proxy or nil
if absent/expired; an expired entry must not be returned". -/
def cache.Get (c : cache) (now : Nat) (key : String) : Option ReverseProxy :=
  match c.entries.find? (fun e => e.key == key) with
  | some e => if now < e.expiresAt then some e.proxy else none
  | none => none

/-- Modelled from the spec: `cache.Cache(key, proxy)`, "inserts with
`expires_at = now + TTL`. Overwrites an existing entry". -/
def cache.Cache (c : cache) (now : Nat) (key : String) (proxy : ReverseProxy) : cache :=
  { c with entries := ⟨key, proxy, now + c.ttl⟩ :: c.entries.filter (fun e => e.key != key) }

/-- Type `registry.NodeRegistry` as its callers see it. The package is not
among the given sources; the answers of its methods are taken as given.
`Register` returns the node as it left it (ports written back) and the error. -/
structure NodeRegistry where
  Register : NodeInfo → NodeInfo × Option String
  Deregister : String → Option String
  Get : String → Except String NodeInfo

/-- Type `Engine` of `engine.go`: the registry, the proxy cache, the timeout
and the version. The logger `l` and the HTTP client `net` carry no state that
the handlers read. `built` counts the proxies built so far and numbers the
next instance. -/
structure Engine where
  reg : NodeRegistry
  cache : cache
  timeout : Nat
  version : String
  built : Nat

/-- Names that `engine.go` uses and that are declared outside the given
sources (`keyNetwork`, `keyFeature`, `network.Private`), the library function
`url.Parse`, and the clock reading of the current request. -/
structure Env where
  keyNetwork : String
  keyFeature : String
  Private : String
  url_Parse : String → Except String URL
  now : Nat

/-- What a handler does, in program order. -/
inductive Effect where
  /-- The call `e.reg.Get(id)`. -/
  | regGet (id : String)
  /-- The call `http.Error(w, msg, code)`: status `code`, body `msg` and a newline. -/
  | httpError (msg : String) (code : Nat)
  /-- The call `w.WriteHeader(code)`. -/
  | WriteHeader (code : Nat)
  /-- The call `render.JSON(w, r, fields)`. -/
  | renderJSON (fields : List (String × String))
  /-- The call `next.ServeHTTP(w, r)` of a middleware. -/
  | next (r : Request)
  /-- The call `e.cache.Get(key)`. -/
  | cacheGet (key : String)
  /-- The call `newProxy(feature, url, e.l)`. -/
  | newProxy (feature : String) (url : URL)
  /-- The call `e.cache.Cache(key, proxy)`. -/
  | cacheCache (key : String) (proxy : ReverseProxy)
  /-- The call `proxy.ServeHTTP(w, r)`: the request is forwarded to the node. -/
  | proxyServeHTTP (proxy : ReverseProxy) (r : Request)
  deriving DecidableEq, Repr

/-- An `http.HandlerFunc` on the engine: the effects, and the engine after. -/
abbrev HandlerFunc := Engine → Request → List Effect × Engine

/-- Function `http.StatusText(code)` for the codes used here. -/
def http_StatusText (code : Nat) : String :=
  if code = 400 then "Bad Request"
  else if code = 422 then "Unprocessable Entity"
  else ""

/-- Modelled from the spec: `newProxy(feature, url, logger)` of `delegator`,
declared outside the given sources: a new reverse proxy for the target URL. -/
def newProxy (inst : Nat) (feature : String) (url : URL) : ReverseProxy :=
  { inst := inst, feature := feature, target := url }

/-- Method `Engine.NetworkContext` of `engine.go`. -/
def Engine.NetworkContext (env : Env) (next : HandlerFunc) : HandlerFunc :=
  fun e r =>
    let id := chi_URLParam r env.keyNetwork
    match e.reg.Get id with
    | .error err => ([.regGet id, .httpError err 404], e)
    | .ok n =>
      let r1 : Request := { r with ctxNetwork := .nodeInfo (some n) }
      let (t, e1) := next e r1
      (.regGet id :: .next r1 :: t, e1)

/-- The `switch feature` of `Redirect`: the port of the feature, `none` in the
`default` branch. -/
def featurePort (n : NodeInfo) (feature : String) : Option String :=
  if feature = "api" then some n.Ports.API
  else if feature = "swarm" then some n.Ports.Swarm
  else none

/-- The target string that `Redirect` builds for a port. -/
def redirectTarget (env : Env) (r : Request) (port : String) : String :=
  let protocol := if r.URLScheme ≠ "" then r.URLScheme ++ "://" else "http://"
  let address := env.Private ++ ":" ++ port
  protocol ++ address ++ r.RequestURI

/-- Method `Engine.Redirect` of `engine.go`. -/
def Engine.Redirect (env : Env) : HandlerFunc :=
  fun e r =>
    match r.ctxNetwork with
    | .nodeInfo (some n) =>
      let feature := chi_URLParam r env.keyFeature
      if feature = "" then
        ([.httpError (http_StatusText 400) 400], e)
      else
        match featurePort n feature with
        | none => ([.httpError ("invalid feature \x27" ++ feature ++ "\x27") 400], e)
        | some port =>
          let target := redirectTarget env r port
          match env.url_Parse target with
          | .error err => ([.httpError err 500], e)
          | .ok url =>
            let key := n.NetworkID ++ "-" ++ feature
            match e.cache.Get env.now key with
            | some proxy => ([.cacheGet key, .proxyServeHTTP proxy r], e)
            | none =>
              let proxy := newProxy e.built feature url
              ([.cacheGet key, .newProxy feature url, .cacheCache key proxy,
                .proxyServeHTTP proxy r],
               { e with cache := e.cache.Cache env.now key proxy, built := e.built + 1 })
    | _ => ([.httpError (http_StatusText 422) 422], e)

/-- Method `Engine.Status` of `engine.go`. -/
def Engine.Status : HandlerFunc :=
  fun e _ => ([.WriteHeader 200, .renderJSON [("status", "online"), ("version", e.version)]], e)

/-- Method `Engine.NetworkStatus` of `engine.go`. -/
def Engine.NetworkStatus : HandlerFunc :=
  fun e r =>
    match r.ctxNetwork with
    | .nodeInfo _ => ([.WriteHeader 200, .renderJSON [("status", "registered")]], e)
    | _ => ([.httpError (http_StatusText 422) 422], e)

/-! ## ipfs/ipfs.go -/

/-- Type `NodeOpts` of `ipfs.go`. `SwarmKey` is a `[]byte`, kept as the text
of its bytes, and `BootstrapPeers` a `[]string`; `none` is the nil slice,
`some` of an empty value a non-nil slice of length zero. -/
structure NodeOpts where
  SwarmKey : Option String
  BootstrapPeers : Option (List String)
  AutoRemove : Bool
  deriving DecidableEq, Repr

/-- A `nat.PortBinding` under its container port. -/
structure PortBinding where
  containerPort : String
  HostIP : String
  HostPort : String
  deriving DecidableEq, Repr

/-- The arguments of `ContainerCreate` that `CreateNode` sets
(`container.Config`, `container.HostConfig` and the container name). -/
structure ContainerSpec where
  Image : String
  Cmd : List String
  Env : List String
  Labels : List (String × String)
  Tty : Bool
  AttachStdout : Bool
  AttachStderr : Bool
  AutoRemove : Bool
  RestartPolicy : String
  Binds : List String
  PortBindings : List PortBinding
  containerName : String
  deriving DecidableEq, Repr

/-- How a `bufio.Scanner` stops: at the end of the stream (`Err()` is nil) or
with an error. -/
inductive ScanEnd where
  | eof
  | err (e : String)
  deriving DecidableEq, Repr

/-- A container log stream as the scanner delivers it: the lines it yields,
in order, and how it stops after the last of them. -/
structure LogStream where
  lines : List String
  ending : ScanEnd
  deriving DecidableEq, Repr

/-- A `context.Context` as the readiness wait sees it: `cancelAfter = some k`
says the context is done once `k` lines have been scanned (so the lines with
index below `k` arrive before the cancellation), `none` that it is never done. -/
structure Context where
  cancelAfter : Option Nat
  deriving DecidableEq, Repr

/-- Whether `<-ctx.Done()` is ready when line number `i` (from 0) is looked at. -/
def Context.Done (ctx : Context) (i : Nat) : Bool :=
  match ctx.cancelAfter with
  | some k => decide (k ≤ i)
  | none => false

/-- A call that the node client makes to the file system or to the Docker
daemon. -/
inductive SysCall where
  | MkdirAll (path : String) (perm : Nat)
  | WriteFile (path : String) (data : String) (perm : Nat)
  | ContainerCreate (spec : ContainerSpec)
  | ContainerStart (id : String)
  | ContainerLogs (id : String) (showStdout follow : Bool)
  | logsClose
  | ContainerExecCreate (id : String) (cmd : List String)
  | ContainerExecStart (execID : String)
  | ContainerStop (id : String) (timeoutSeconds : Nat)
  | ContainerRemove (id : String) (removeLinks removeVolumes : Bool)
  | RemoveAll (path : String)
  deriving DecidableEq, Repr

/-- The answers of the file system, the Docker daemon and the library
functions to the calls of the node client; `none` is the nil error. -/
structure Runtime where
  filepath_Join : String → String → String
  filepath_Abs : String → String
  json_Marshal : Option (List String) → String
  WriteFile : String → String → Option String
  ContainerCreate : ContainerSpec → Except String (String × List String)
  ContainerStart : String → Option String
  ContainerLogs : String → Except String LogStream
  ContainerExecCreate : String → List String → Except String String
  ContainerExecStart : String → Option String
  ContainerStop : String → Option String
  ContainerRemove : String → Option String
  RemoveAll : String → Option String

/-- Type `client` of `ipfs.go` (the logger and the Docker handle apart). -/
structure client where
  ipfsImage : String
  dataDir : String
  deriving DecidableEq, Repr

/-- Method `client.getDataDir` of `ipfs.go`. -/
def client.getDataDir (rt : Runtime) (c : client) (network : String) : String :=
  rt.filepath_Abs (rt.filepath_Join c.dataDir ("/data/ipfs/" ++ network))

/-- The `for scanner.Scan()` loop of `waitForNode` from line number `i` on,
and the `return scanner.Err()` after it. -/
def scanLoop (ctx : Context) (dockerID : String) (ending : ScanEnd) :
    List String → Nat → Option String
  | [], _ =>
    match ending with
    | .eof => none
    | .err e => some e
  | line :: rest, i =>
    if ctx.Done i then some ("cancelled wait for " ++ dockerID)
    else if strings_Contains line "Daemon is ready" then none
    else scanLoop ctx dockerID ending rest (i + 1)

/-- Method `client.waitForNode` of `ipfs.go`: the calls made and the error
returned (`none` is nil, the success). -/
def client.waitForNode (rt : Runtime) (ctx : Context) (dockerID : String) :
    List SysCall × Option String :=
  match rt.ContainerLogs dockerID with
  | .error err => ([.ContainerLogs dockerID true true], some err)
  | .ok logs =>
    ([.ContainerLogs dockerID true true, .logsClose],
      scanLoop ctx dockerID logs.ending logs.lines 0)

/-- Method `client.bootstrapNode` of `ipfs.go`. -/
def client.bootstrapNode (rt : Runtime) (dockerID : String) (peers : Option (List String)) :
    List SysCall × Option String :=
  match peers with
  | none => ([], some "no peers provided")
  | some [] => ([], some "no peers provided")
  | some ps =>
    let rmBootstrap := ["ipfs", "bootstrap", "rm", "--all"]
    match rt.ContainerExecCreate dockerID rmBootstrap with
    | .error err => ([.ContainerExecCreate dockerID rmBootstrap], some err)
    | .ok execID =>
      match rt.ContainerExecStart execID with
      | some err =>
        ([.ContainerExecCreate dockerID rmBootstrap, .ContainerExecStart execID], some err)
      | none =>
        let bootstrap := ["ipfs", "bootstrap", "add"] ++ ps
        match rt.ContainerExecCreate dockerID bootstrap with
        | .error err =>
          ([.ContainerExecCreate dockerID rmBootstrap, .ContainerExecStart execID,
            .ContainerExecCreate dockerID bootstrap],
           some ("failed to init bootstrapping process with " ++ dockerID ++ ": " ++ err))
        | .ok execID2 =>
          ([.ContainerExecCreate dockerID rmBootstrap, .ContainerExecStart execID,
            .ContainerExecCreate dockerID bootstrap, .ContainerExecStart execID2],
           rt.ContainerExecStart execID2)


/-- The `ContainerCreate` arguments that `CreateNode` builds for a node. -/
def client.containerSpec (rt : Runtime) (c : client) (n : NodeInfo) (opts : NodeOpts) :
    ContainerSpec :=
  let peerBytes := rt.json_Marshal opts.BootstrapPeers
  { Image := c.ipfsImage
    Cmd := ["daemon", "--migrate=true", "--enable-pubsub-experiment"]
    Env := ["LIBP2P_FORCE_PNET=1"]
    Labels := [("network_id", n.NetworkID),
               ("data_dir", c.getDataDir rt n.NetworkID),
               ("swarm_port", n.Ports.Swarm),
               ("api_port", n.Ports.API),
               ("gateway_port", n.Ports.Gateway),
               ("bootstrap_peers", peerBytes),
               ("job_id", n.JobID)]
    Tty := true
    AttachStdout := true
    AttachStderr := true
    AutoRemove := opts.AutoRemove
    RestartPolicy := if !opts.AutoRemove then "unless-stopped" else ""
    Binds := [c.getDataDir rt n.NetworkID ++ ":/data/ipfs"]
    PortBindings := [⟨"4001", "0.0.0.0", n.Ports.Swarm⟩,
                     ⟨"5001", "127.0.0.1", n.Ports.API⟩,
                     ⟨"8080", "127.0.0.1", n.Ports.Gateway⟩]
    containerName := "ipfs-" ++ n.NetworkID }

/-- The result of a method that takes a `*NodeInfo`: the calls made, the node
behind the pointer afterwards (`none` for the nil pointer), and the error. -/
structure NodeResult where
  calls : List SysCall
  node : Option NodeInfo
  err : Option String
  deriving DecidableEq, Repr

/-- The part of `CreateNode` after the container was created without
warnings: start, readiness wait, bootstrap, node metadata. `pre` are the calls
made before. -/
def client.startNode (rt : Runtime) (c : client) (ctx : Context) (n : NodeInfo)
    (opts : NodeOpts) (pre : List SysCall) (respID : String) : NodeResult :=
  let bootstrap := match opts.BootstrapPeers with
    | some ps => decide (ps.length > 0)
    | none => false
  match rt.ContainerStart respID with
  | some err =>
    ⟨pre ++ [.ContainerStart respID], some n, some ("failed to start ipfs node: " ++ err)⟩
  | none =>
    let (w, werr) := client.waitForNode rt ctx respID
    match werr with
    | some err => ⟨pre ++ [.ContainerStart respID] ++ w, some n, some err⟩
    | none =>
      let (b, berr) := if bootstrap then client.bootstrapNode rt respID opts.BootstrapPeers
                       else ([], none)
      match berr with
      | some err => ⟨pre ++ [.ContainerStart respID] ++ w ++ b, some n, some err⟩
      | none =>
        ⟨pre ++ [.ContainerStart respID] ++ w ++ b,
         some { n with DockerID := respID
                       ContainerName := "ipfs-" ++ n.NetworkID
                       DataDir := c.getDataDir rt n.NetworkID },
         none⟩

/-- Method `client.CreateNode` of `ipfs.go`. -/
def client.CreateNode (rt : Runtime) (c : client) (ctx : Context) (node : Option NodeInfo)
    (opts : NodeOpts) : NodeResult :=
  match node, opts.SwarmKey with
  | none, _ => ⟨[], node, some "invalid configuration provided"⟩
  | some _, none => ⟨[], node, some "invalid configuration provided"⟩
  | some n, some swarmKey =>
    if n.NetworkID = "" then ⟨[], node, some "invalid configuration provided"⟩
    else
      let dir := c.getDataDir rt n.NetworkID
      let pre : List SysCall := [.MkdirAll dir 0o700, .WriteFile (dir ++ "/swarm.key") swarmKey 0o700]
      match rt.WriteFile (dir ++ "/swarm.key") swarmKey with
      | some err => ⟨pre, node, some ("failed to write key: " ++ err)⟩
      | none =>
        let spec := c.containerSpec rt n opts
        match rt.ContainerCreate spec with
        | .error err =>
          ⟨pre ++ [.ContainerCreate spec], node, some ("failed to instantiate node: " ++ err)⟩
        | .ok (respID, warnings) =>
          if warnings.length > 0 then
            ⟨pre ++ [.ContainerCreate spec], node,
             some ("errors encountered: " ++ String.intercalate "\n" warnings)⟩
          else
            c.startNode rt ctx n opts (pre ++ [.ContainerCreate spec]) respID

/-- Method `client.StopNode` of `ipfs.go`. -/
def client.StopNode (rt : Runtime) (c : client) (node : Option NodeInfo) : NodeResult :=
  match node with
  | none => ⟨[], node, some "invalid node"⟩
  | some n =>
    match rt.ContainerStop n.DockerID with
    | some err => ⟨[.ContainerStop n.DockerID 10], node, some err⟩
    | none =>
      ⟨[.ContainerStop n.DockerID 10, .ContainerRemove n.DockerID true true,
        .RemoveAll (c.getDataDir rt n.NetworkID)],
       node, rt.RemoveAll (c.getDataDir rt n.NetworkID)⟩


/-! ## orchestrator/orchestrator.go -/

/-- The database record of a network (`models.HostedIPFSPrivateNetwork`): the
fields that the orchestrator reads and writes. `Activated` is a time in
seconds, 0 being the zero `time.Time`. -/
structure HostedNetwork where
  ID : Nat
  Name : String
  APIURL : String
  SwarmKey : String
  Activated : Nat
  deriving DecidableEq, Repr

/-- A value in the field map of `UpdateNetworkByName`. -/
inductive FieldValue where
  | time (t : Nat)
  | str (s : String)
  deriving DecidableEq, Repr

/-- Interface `ipfs.NodeClient` as the orchestrator calls it. `CreateNode`
returns the node behind the pointer afterwards and the error. -/
structure NodeClient where
  Nodes : Except String (List NodeInfo)
  CreateNode : NodeInfo → NodeOpts → NodeInfo × Option String
  StopNode : NodeInfo → Option String

/-- Type `models.IPFSNetworkManager` (the database) as the orchestrator calls
it; `none` is the nil error. -/
structure IPFSNetworkManager where
  GetNetworkByName : String → Except String HostedNetwork
  UpdateNetwork : HostedNetwork → Option String
  UpdateNetworkByName : String → List (String × FieldValue) → Option String

/-- Type `Orchestrator` of `orchestrator.go` (the logger apart). -/
structure Orchestrator where
  nm : IPFSNetworkManager
  client : NodeClient
  reg : NodeRegistry
  host : String

/-- What `New` calls outside the given sources: `registry.New` on the port
configuration and the seed nodes, and `database.Initialize` followed by
`models.NewHostedIPFSNetworkManager` on the database configuration. -/
structure Boot (P G : Type) where
  registry_New : P → List NodeInfo → NodeRegistry
  database_Initialize : G → Bool → Except String IPFSNetworkManager

/-- Function `New` of `orchestrator.go`. The struct literal it returns sets
`l`, `nm`, `client` and `reg`; `host` is not among them and so keeps the zero
value of a Go string. -/
def New {P G : Type} (b : Boot P G) (_host : String) (c : NodeClient) (ports : P) (pg : G)
    (dev : Bool) : Except String Orchestrator :=
  match c.Nodes with
  | .error err => .error ("unable to fetch nodes: " ++ err)
  | .ok nodes =>
    let reg := b.registry_New ports nodes
    match b.database_Initialize pg dev with
    | .error err => .error ("unable to connect to database: " ++ err)
    | .ok nm => .ok { nm := nm, client := c, reg := reg, host := "" }

/-- What `NetworkUp` and `NetworkDown` read from outside the orchestrator: the
id that `generateID` draws, the clock at the database write, and the helper
`getOptionsFromDatabaseEntry` (declared outside the given sources). -/
structure OrchEnv where
  generateID : String
  now : Nat
  getOptionsFromDatabaseEntry : HostedNetwork → Except String NodeOpts

/-- A call that the orchestrator makes, in program order. -/
inductive OrchCall where
  | log (level : String) (msg : String)
  | GetNetworkByName (name : String)
  | Register (node : NodeInfo)
  | CreateNode (node : NodeInfo) (opts : NodeOpts)
  | UpdateNetwork (n : HostedNetwork)
  | Get (name : String)
  | StopNode (node : NodeInfo)
  | Deregister (name : String)
  | UpdateNetworkByName (name : String) (fields : List (String × FieldValue))
  deriving DecidableEq, Repr

/-- Whether a call of the orchestrator is a log entry. -/
def OrchCall.isLog : OrchCall → Bool
  | .log _ _ => true
  | _ => false

/-- Go `string(b)` of a `[]byte`: the nil slice gives the empty string. -/
def bytesToString (b : Option String) : String :=
  b.getD ""

/-- The text of `l.Info(msg, "network.db_id", id)`: the sugared logger prints
its arguments with `fmt.Sprint`, which puts a space between two operands only
when neither is a string, so the three are written one after the other. -/
def fmt_Sprint_db_id (msg : String) (id : Nat) : String :=
  msg ++ "network.db_id" ++ toString id

/-- Method `Orchestrator.NetworkUp` of `orchestrator.go`: the calls made and
the error returned (`none` is nil). -/
def Orchestrator.NetworkUp (env : OrchEnv) (o : Orchestrator) (network : String) :
    List OrchCall × Option String :=
  if network = "" then ([], some "invalid network name provided")
  else
    let jobID := env.generateID
    let t0 : List OrchCall := [.log "info" "network up process started", .GetNetworkByName network]
    match o.nm.GetNetworkByName network with
    | .error _ => (t0, some ("no network with name \x27" ++ network ++ "\x27 found"))
    | .ok n =>
      let t1 := t0 ++ [.log "info" (fmt_Sprint_db_id "network retrieved from database" n.ID)]
      match env.getOptionsFromDatabaseEntry n with
      | .error err => (t1, some ("failed to configure network: " ++ err))
      | .ok opts =>
        let newNode0 : NodeInfo :=
          { NetworkID := network, JobID := jobID, Ports := ⟨"", "", ""⟩,
            DockerID := "", ContainerName := "", DataDir := "" }
        let t2 := t1 ++ [.Register newNode0]
        match o.reg.Register newNode0 with
        | (_, some err) =>
          (t2, some ("failed to allocate resources for network \x27" ++ network ++ "\x27: " ++ err))
        | (newNode1, none) =>
          let t3 := t2 ++ [.log "info" "network registered, creating node",
                           .CreateNode newNode1 opts]
          match o.client.CreateNode newNode1 opts with
          | (_, some err) =>
            (t3, some ("failed to instantiate node for network \x27" ++ network ++ "\x27: " ++ err))
          | (newNode2, none) =>
            let n1 : HostedNetwork :=
              { n with APIURL := o.host ++ ":" ++ newNode2.Ports.API
                       SwarmKey := bytesToString opts.SwarmKey
                       Activated := env.now }
            let t4 := t3 ++ [.log "info" "node created", .UpdateNetwork n1]
            match o.nm.UpdateNetwork n1 with
            | some err =>
              (t4, some ("failed to update network \x27" ++ network ++ "\x27: " ++ err))
            | none => (t4 ++ [.log "info" "network up process completed"], none)

/-- Method `Orchestrator.NetworkDown` of `orchestrator.go`: the calls made and
the error returned (`none` is nil). -/
def Orchestrator.NetworkDown (o : Orchestrator) (network : String) :
    List OrchCall × Option String :=
  if network = "" then ([], some "invalid network name provided")
  else
    let t0 : List OrchCall := [.log "info" "network up process started", .Get network]
    match o.reg.Get network with
    | .error err =>
      (t0 ++ [.log "info" "could not find node in registry"],
       some ("failed to get node for network " ++ network ++ " from registry: " ++ err))
    | .ok node =>
      let t1 := t0 ++ [.log "info" "network found, stopping node", .StopNode node]
      let t2 := match o.client.StopNode node with
        | some _ => t1 ++ [.log "error" "error occured while stopping node"]
        | none => t1
      let t3 := t2 ++ [.log "info" "node stopped", .Deregister network]
      let t4 := match o.reg.Deregister network with
        | some _ => t3 ++ [.log "warn" "error occured while deregistering node"]
        | none => t3
      let fields : List (String × FieldValue) := [("activated", .time 0), ("api_url", .str "")]
      let t5 := t4 ++ [.UpdateNetworkByName network fields]
      match o.nm.UpdateNetworkByName network fields with
      | some err =>
        (t5 ++ [.log "error" "failed to update database entry for network"],
         some ("failed to update network \x27" ++ network ++ "\x27: " ++ err))
      | none => (t5 ++ [.log "info" "network down process completed"], none)


/-! ## temporal/mock/access.mock.go -/

/-- Type `FakeAccessChecker` of `access.mock.go` (the mutexes apart).
`invocations` is the map from method name to the argument lists recorded. -/
structure FakeAccessChecker where
  CheckIfUserHasAccessToNetworkStub : Option (String → String → Bool × Option String)
  checkIfUserHasAccessToNetworkArgsForCall : List (String × String)
  checkIfUserHasAccessToNetworkReturns : Bool × Option String
  checkIfUserHasAccessToNetworkReturnsOnCall : List (Nat × (Bool × Option String))
  invocations : List (String × List (List String))

/-- Method `recordInvocation` of `access.mock.go`. -/
def FakeAccessChecker.recordInvocation (fake : FakeAccessChecker) (key : String)
    (args : List String) : FakeAccessChecker :=
  let old := (fake.invocations.lookup key).getD []
  { fake with
    invocations := (key, old ++ [args]) :: fake.invocations.filter (fun kv => kv.1 != key) }

/-- Method `CheckIfUserHasAccessToNetwork` of `access.mock.go`: the result pair
and the fake afterwards. -/
def FakeAccessChecker.CheckIfUserHasAccessToNetwork (fake : FakeAccessChecker)
    (arg1 arg2 : String) : (Bool × Option String) × FakeAccessChecker :=
  let specific := fake.checkIfUserHasAccessToNetworkReturnsOnCall.lookup
    fake.checkIfUserHasAccessToNetworkArgsForCall.length
  let fake1 := { fake with
    checkIfUserHasAccessToNetworkArgsForCall :=
      fake.checkIfUserHasAccessToNetworkArgsForCall ++ [(arg1, arg2)] }
  let fake2 := fake1.recordInvocation "CheckIfUserHasAccessToNetwork" [arg1, arg2]
  match fake.CheckIfUserHasAccessToNetworkStub with
  | some stub => (stub arg1 arg2, fake2)
  | none =>
    match specific with
    | some ret => (ret, fake2)
    | none => (fake.checkIfUserHasAccessToNetworkReturns, fake2)

/-- Method `CheckIfUserHasAccessToNetworkCallCount` of `access.mock.go`. -/
def FakeAccessChecker.CheckIfUserHasAccessToNetworkCallCount (fake : FakeAccessChecker) : Nat :=
  fake.checkIfUserHasAccessToNetworkArgsForCall.length

/-- Method `CheckIfUserHasAccessToNetworkReturns` of `access.mock.go`. -/
def FakeAccessChecker.CheckIfUserHasAccessToNetworkReturns (fake : FakeAccessChecker)
    (result1 : Bool) (result2 : Option String) : FakeAccessChecker :=
  { fake with
    CheckIfUserHasAccessToNetworkStub := none
    checkIfUserHasAccessToNetworkReturns := (result1, result2) }

/-! ## The authorization step of the delegator -/

/-- Interface `temporal.AccessChecker`, which `FakeAccessChecker` implements:
the result and the error of `CheckIfUserHasAccessToNetwork(user, net)`. -/
abbrev AccessChecker := String → String → Bool × Option String

/-- The answers of a fake access checker, as an `AccessChecker`. -/
def FakeAccessChecker.asChecker (fake : FakeAccessChecker) : AccessChecker :=
  fun arg1 arg2 => (fake.CheckIfUserHasAccessToNetwork arg1 arg2).1

/-- What the authorizing handler does, in program order: a call of the access
checker, or an effect of the handlers of `engine.go`. -/
inductive AccessEffect where
  /-- The call `CheckIfUserHasAccessToNetwork(user, net)`. -/
  | CheckIfUserHasAccessToNetwork (user net : String)
  /-- An effect of a handler of `engine.go`. -/
  | handler (eff : Effect)
  deriving DecidableEq, Repr

/-- Modelled from the spec: the authorization step of the delegator handler
(section 4.5, "Authorization (collaborator)", and the rows `AuthMissing` /
`AuthInvalid` and `Forbidden` of section 7). The given `engine.go` does not
contain it: `Engine` there holds no access checker and `Redirect` never calls
`getUserFromJWT`, which is the spec's "absent checker" mode; of the step only
`getUserFromJWT` (`auth.go`) and the fake checker (`access.mock.go`) are among
the sources. In the words of the spec: if an access checker is configured,
the handler extracts a user id from the bearer JWT and calls
`CheckIfUserHasAccessToNetwork(user, net)`, `net` being the `{net}` of the
route; a false result yields 403, an error yields 401 (as does a failed JWT
extraction); an absent checker means open access. A request that passes goes
on to `next`. -/
def Engine.authorize {K : Type} (env : Env) (Parse : String → K → Except String Token)
    (keyLookup : K) (access : Option AccessChecker) (next : HandlerFunc) :
    Engine → Request → List AccessEffect × Engine :=
  fun e r =>
    match access with
    | none =>
      let (t, e1) := next e r
      (t.map .handler, e1)
    | some checker =>
      match getUserFromJWT Parse r keyLookup with
      | (_, some err) => ([.handler (.httpError err.Error 401)], e)
      | (user, none) =>
        let net := chi_URLParam r env.keyNetwork
        match checker user net with
        | (_, some err) =>
          ([.CheckIfUserHasAccessToNetwork user net, .handler (.httpError err 401)], e)
        | (false, none) =>
          ([.CheckIfUserHasAccessToNetwork user net, .handler (.httpError "Forbidden" 403)], e)
        | (true, none) =>
          let (t, e1) := next e r
          (.CheckIfUserHasAccessToNetwork user net :: t.map .handler, e1)

/-! ## Sample values -/

/-- A registered node of network `foo` with API port 5055. -/
def sampleNode : NodeInfo :=
  { NetworkID := "foo", JobID := "job-1", Ports := ⟨"4001", "5055", "8080"⟩,
    DockerID := "c0ffee", ContainerName := "ipfs-foo", DataDir := "/srv/data/ipfs/foo" }

/-- A registry that holds `sampleNode` only, and whose port pool hands out
the ports of `sampleNode`. -/
def sampleRegistry : NodeRegistry :=
  { Register := fun n => ({ n with Ports := sampleNode.Ports }, none)
    Deregister := fun id => if id = "foo" then none else some "network not found"
    Get := fun id =>
      if id = "foo" then .ok sampleNode
      else .error ("node for network \x27" ++ id ++ "\x27 not found") }

/-- An engine over `sampleRegistry` with an empty proxy cache. -/
def sampleEngine : Engine :=
  { reg := sampleRegistry, cache := ⟨[], 1800⟩, timeout := 30, version := "test", built := 0 }

/-- Route keys `network` and `feature`, private host `127.0.0.1`, and a URL
parser that accepts every string. -/
def sampleEnv : Env :=
  { keyNetwork := "network", keyFeature := "feature", Private := "127.0.0.1",
    url_Parse := fun s => .ok ⟨s⟩, now := 100 }

/-- The request `GET /network/<net>/<feature>/v0/id` with an Authorization
header, before the middleware has run. -/
def sampleRequest (net feature authorization : String) : Request :=
  { Header := [("Authorization", authorization)], URLScheme := "",
    RequestURI := "/network/" ++ net ++ "/" ++ feature ++ "/v0/id",
    URLParams := [("network", net), ("feature", feature)], ctxNetwork := .absent }

/-- A fresh fake access checker set to deny: `Returns(false, nil)`. -/
def denyingChecker : FakeAccessChecker :=
  FakeAccessChecker.CheckIfUserHasAccessToNetworkReturns
    { CheckIfUserHasAccessToNetworkStub := none
      checkIfUserHasAccessToNetworkArgsForCall := []
      checkIfUserHasAccessToNetworkReturns := (false, none)
      checkIfUserHasAccessToNetworkReturnsOnCall := []
      invocations := [] } false none

/-- A fresh fake access checker set to fail: `Returns(false, err)`. -/
def failingChecker : FakeAccessChecker :=
  FakeAccessChecker.CheckIfUserHasAccessToNetworkReturns denyingChecker false (some "db down")


/-- A log stream of a daemon that exits before it is ready: two lines, neither
with the marker, then the end of the stream. -/
def sampleDeadLogs : LogStream :=
  ⟨["Initializing daemon...", "Error: lock /data/ipfs/repo.lock: someone else has the lock"],
   .eof⟩

/-- A runtime in which every call succeeds, and the log stream of every
container is `sampleDeadLogs`. Paths are joined by concatenation. -/
def sampleRuntime : Runtime :=
  { filepath_Join := fun a b => a ++ b
    filepath_Abs := fun p => p
    json_Marshal := fun peers =>
      match peers with
      | none => "null"
      | some ps => "[" ++ String.intercalate "," (ps.map (fun q => "\"" ++ q ++ "\"")) ++ "]"
    WriteFile := fun _ _ => none
    ContainerCreate := fun _ => .ok ("c0ffee", [])
    ContainerStart := fun _ => none
    ContainerLogs := fun _ => .ok sampleDeadLogs
    ContainerExecCreate := fun _ _ => .ok "exec-1"
    ContainerExecStart := fun _ => none
    ContainerStop := fun _ => none
    ContainerRemove := fun _ => none
    RemoveAll := fun _ => none }

/-- The runtime `sampleRuntime`, except that the container is already gone:
`ContainerStop` fails. -/
def sampleRuntimeStopFails : Runtime :=
  { sampleRuntime with ContainerStop := fun id => some ("No such container: " ++ id) }

/-- A node client with data root `/srv`. -/
def sampleClient : client :=
  { ipfsImage := "ipfs/go-ipfs:v0.4.18", dataDir := "/srv" }

/-- A node of network `foo` as `Register` leaves it: ports set, no container. -/
def sampleNewNode : NodeInfo :=
  { NetworkID := "foo", JobID := "job-1", Ports := ⟨"4001", "5055", "8080"⟩,
    DockerID := "", ContainerName := "", DataDir := "" }


/-- The database record of network `foo` before it is brought up. -/
def sampleNetwork : HostedNetwork :=
  { ID := 7, Name := "foo", APIURL := "", SwarmKey := "", Activated := 0 }

/-- A database that holds `sampleNetwork` only and accepts every update. -/
def sampleManager : IPFSNetworkManager :=
  { GetNetworkByName := fun name =>
      if name = "foo" then .ok sampleNetwork else .error "record not found"
    UpdateNetwork := fun _ => none
    UpdateNetworkByName := fun _ _ => none }

/-- A node client whose calls all succeed. -/
def sampleNodeClient : NodeClient :=
  { Nodes := .ok []
    CreateNode := fun n _ =>
      ({ n with DockerID := "c0ffee", ContainerName := "ipfs-" ++ n.NetworkID,
                DataDir := "/srv/data/ipfs/" ++ n.NetworkID }, none)
    StopNode := fun _ => none }

/-- The collaborators of `New`: the registry is `sampleRegistry`, the
database `sampleManager`. -/
def sampleBoot : Boot Unit Unit :=
  { registry_New := fun _ _ => sampleRegistry
    database_Initialize := fun _ _ => .ok sampleManager }

/-- Job id `job-1`, a clock reading, and options with a swarm key and no
bootstrap peers for every record. -/
def sampleOrchEnv : OrchEnv :=
  { generateID := "job-1", now := 1541116800,
    getOptionsFromDatabaseEntry := fun _ => .ok ⟨some "/key/swarm/psk/1.0.0/", none, false⟩ }

/-- An orchestrator over the sample collaborators, with host `10.0.0.5`. -/
def sampleOrchestrator : Orchestrator :=
  { nm := sampleManager, client := sampleNodeClient, reg := sampleRegistry, host := "10.0.0.5" }


/-- A node client whose `CreateNode` and `StopNode` fail. -/
def sampleFailingNodeClient : NodeClient :=
  { Nodes := .ok []
    CreateNode := fun n _ => (n, some "failed to start ipfs node: port is already allocated")
    StopNode := fun _ => some "No such container: c0ffee" }

/-- The orchestrator `sampleOrchestrator` over the failing node client. -/
def sampleOrchestratorFailingClient : Orchestrator :=
  { sampleOrchestrator with client := sampleFailingNodeClient }


/-- A JWT parser that accepts the token `h.p.s` as a valid token of user
`u1` and rejects every other token string. -/
def sampleParse : String → Unit → Except String Token :=
  fun tokenString _ =>
    if tokenString = "h.p.s" then .ok ⟨.MapClaims [("id", .str "u1")], true⟩
    else .error "token contains an invalid number of segments"

/-- A database that holds `sampleNetwork` and whose updates fail. -/
def sampleManagerUpdateFails : IPFSNetworkManager :=
  { sampleManager with
    UpdateNetwork := fun _ => some "connection refused"
    UpdateNetworkByName := fun _ _ => some "connection refused" }

/-- The orchestrator `sampleOrchestrator` over the database whose updates fail. -/
def sampleOrchestratorFailingDatabase : Orchestrator :=
  { sampleOrchestrator with nm := sampleManagerUpdateFails }

/-! # Theorems -/

/-! ## Splitting and searching text -/

/-- A split is never the empty list. -/
theorem splitChars_ne_nil (sep s : List Char) (k : Nat) (cur : List Char) :
    splitChars sep s k cur ≠ [] := by
  induction s generalizing k cur with
  | nil => simp [splitChars]
  | cons c cs ih =>
    cases k with
    | zero =>
      simp only [splitChars]
      split
      · simp
      · exact ih _ _
    | succ k => simpa [splitChars] using ih k cur

/-- A split has fewer than two pieces exactly when the separator does not
occur in the text. -/
theorem splitChars_length_lt_two (sep : List Char) (hsep : sep ≠ []) (s cur : List Char) :
    (splitChars sep s 0 cur).length < 2 ↔ s.tails.any (fun t => sep.isPrefixOf t) = false := by
  induction s generalizing cur with
  | nil =>
    cases sep with
    | nil => exact absurd rfl hsep
    | cons a as => simp [splitChars, List.isPrefixOf]
  | cons c cs ih =>
    simp only [splitChars, List.tails, List.any_cons]
    by_cases hp : sep.isPrefixOf (c :: cs) = true
    · have hne := splitChars_ne_nil sep cs (sep.length - 1) []
      have : 0 < (splitChars sep cs (sep.length - 1) []).length := List.length_pos.mpr hne
      simp [hp]
      omega
    · have ih1 := ih (c :: cur)
      simp only [Bool.not_eq_true] at hp
      simp [hp, ih1]

/-- `strings.Split(s, sep)` has fewer than two pieces exactly when
`strings.Contains(s, sep)` is false. -/
theorem strings_Split_length_lt_two (s sep : String) (hsep : sep ≠ "") :
    (strings_Split s sep).length < 2 ↔ strings_Contains s sep = false := by
  unfold strings_Split strings_Contains
  rw [List.length_map]
  apply splitChars_length_lt_two
  intro h
  apply hsep
  cases sep
  simp_all

/-! ## getUserFromJWT -/

/-- With fewer than two pieces in the split header the guard
`len(splitToken) < 2` fires. -/
theorem getUserFromJWT_of_short_split {K : Type} (Parse : String → K → Except String Token)
    (r : Request) (k : K)
    (h : (strings_Split (r.Header.Get "Authorization") "Bearer ").length < 2) :
    getUserFromJWT Parse r k = ("", some .errNoAuth) := by
  simp only [getUserFromJWT]
  generalize strings_Split (r.Header.Get "Authorization") "Bearer " = parts at h
  match parts, h with
  | [], _ => rfl
  | [_], _ => rfl
  | _ :: _ :: _, h => exact absurd h (by simp)

/-- A nil error comes with a non-empty user, an error with the empty user. -/
theorem getUserFromJWT_nil_error_user {K : Type} (Parse : String → K → Except String Token)
    (r : Request) (k : K) :
    ((getUserFromJWT Parse r k).2 = none → (getUserFromJWT Parse r k).1 ≠ "") ∧
    ((getUserFromJWT Parse r k).2 ≠ none → (getUserFromJWT Parse r k).1 = "") := by
  simp only [getUserFromJWT]
  split
  · split
    · simp
    · split
      · split
        · split <;> simp_all
        · simp
      · simp
  · simp

/-- C1, as stated, fails: a request whose Authorization header is present but
has no `Bearer ` in it (`Basic abc`), with a parser that accepts every token
string as a valid token with `id` = `u1`, is in none of the error cases of the
claim (the header is not missing, no token fails to parse, is invalid or lacks
a proper `id`), yet `getUserFromJWT` answers the "no authentication" error
with the empty user instead of `u1`. -/
theorem getUserFromJWT_bearerless_header :
    (([("Authorization", "Basic abc")] : Header).lookup "Authorization" = some "Basic abc") ∧
    getUserFromJWT (fun (_ : String) (_ : Unit) => .ok ⟨.MapClaims [("id", .str "u1")], true⟩)
      { Header := [("Authorization", "Basic abc")], URLScheme := "", RequestURI := "/",
        URLParams := [], ctxNetwork := .absent } () = ("", some .errNoAuth) := by
  decide

/-- C1, amended: for every request and key function, `getUserFromJWT` returns
the "no authentication" error when the Authorization header is missing or does
not contain the text `Bearer `; when it does, the token string is the piece
after the first `Bearer `, and the "invalid authentication" error is returned
when that token fails to parse, is not valid, has claims that are no
`MapClaims`, or has an `id` claim that is missing, not a string or empty;
otherwise the `id` claim is returned with a nil error. Every error comes with
the empty user and a nil error with a non-empty user. -/
theorem getUserFromJWT_cases {K : Type} (Parse : String → K → Except String Token)
    (r : Request) (k : K) :
    (r.Header.lookup "Authorization" = none →
      getUserFromJWT Parse r k = ("", some .errNoAuth)) ∧
    (strings_Contains (r.Header.Get "Authorization") "Bearer " = false →
      getUserFromJWT Parse r k = ("", some .errNoAuth)) ∧
    (strings_Contains (r.Header.Get "Authorization") "Bearer " = true →
      ∃ pre tokenString rest,
        strings_Split (r.Header.Get "Authorization") "Bearer " = pre :: tokenString :: rest) ∧
    (∀ pre tokenString rest,
      strings_Split (r.Header.Get "Authorization") "Bearer " = pre :: tokenString :: rest →
      (∀ e, Parse tokenString k = .error e →
        getUserFromJWT Parse r k = ("", some .errInvalidAuth)) ∧
      (∀ t, Parse tokenString k = .ok t →
        (t.Valid = false ∨ t.Claims = .otherClaims ∨
          ∃ m, t.Claims = .MapClaims m ∧
            (m.lookup "id" = none ∨ m.lookup "id" = some .nonString ∨
              m.lookup "id" = some (.str ""))) →
        getUserFromJWT Parse r k = ("", some .errInvalidAuth)) ∧
      (∀ m user, Parse tokenString k = .ok ⟨.MapClaims m, true⟩ →
        m.lookup "id" = some (.str user) → user ≠ "" →
        getUserFromJWT Parse r k = (user, none))) ∧
    ((getUserFromJWT Parse r k).2 = none → (getUserFromJWT Parse r k).1 ≠ "") ∧
    ((getUserFromJWT Parse r k).2 ≠ none → (getUserFromJWT Parse r k).1 = "") := by
  refine ⟨?_, ?_, ?_, ?_, getUserFromJWT_nil_error_user Parse r k⟩
  · intro h
    apply getUserFromJWT_of_short_split
    have : r.Header.Get "Authorization" = "" := by simp [Header.Get, h]
    rw [this]
    decide
  · intro h
    apply getUserFromJWT_of_short_split
    exact (strings_Split_length_lt_two _ _ (by decide)).mpr h
  · intro h
    have hlen : ¬ (strings_Split (r.Header.Get "Authorization") "Bearer ").length < 2 := by
      intro hlt
      have := (strings_Split_length_lt_two _ _ (by decide)).mp hlt
      simp [h] at this
    match hs : strings_Split (r.Header.Get "Authorization") "Bearer " with
    | [] => simp [hs] at hlen
    | [_] => simp [hs] at hlen
    | a :: b :: c => exact ⟨a, b, c, rfl⟩
  · intro pre tokenString rest hs
    refine ⟨?_, ?_, ?_⟩
    · intro e he
      simp [getUserFromJWT, hs, he]
    · intro t ht hbad
      simp only [getUserFromJWT, hs, ht]
      rcases hbad with hv | hc | ⟨m, hm, hid⟩
      · cases hcl : t.Claims <;> simp [hv]
      · simp [hc]
      · cases hv : t.Valid
        · simp [hm]
        · rcases hid with h1 | h1 | h1 <;> simp [hm, h1]
    · intro m user hp hid hne
      simp [getUserFromJWT, hs, hp, hid, hne]


/-! ## Engine.Redirect: the cache step -/

/-- A feature that has a port is not the empty string. -/
theorem featurePort_ne_empty (n : NodeInfo) (feature port : String)
    (hp : featurePort n feature = some port) : feature ≠ "" := by
  intro h0
  rw [h0] at hp
  simp [featurePort] at hp

/-- For a node in the context, a feature with a port and a target that
parses, `Redirect` is the cache step: serve the cached proxy, or build, store
and serve a new one. -/
theorem Redirect_valid (env : Env) (e : Engine) (r : Request) (n : NodeInfo) (port : String)
    (url : URL) (hn : r.ctxNetwork = .nodeInfo (some n))
    (hp : featurePort n (chi_URLParam r env.keyFeature) = some port)
    (hu : env.url_Parse (redirectTarget env r port) = .ok url) :
    Engine.Redirect env e r =
      match e.cache.Get env.now (n.NetworkID ++ "-" ++ chi_URLParam r env.keyFeature) with
      | some proxy =>
        ([.cacheGet (n.NetworkID ++ "-" ++ chi_URLParam r env.keyFeature),
          .proxyServeHTTP proxy r], e)
      | none =>
        ([.cacheGet (n.NetworkID ++ "-" ++ chi_URLParam r env.keyFeature),
          .newProxy (chi_URLParam r env.keyFeature) url,
          .cacheCache (n.NetworkID ++ "-" ++ chi_URLParam r env.keyFeature)
            (newProxy e.built (chi_URLParam r env.keyFeature) url),
          .proxyServeHTTP (newProxy e.built (chi_URLParam r env.keyFeature) url) r],
         { e with
           cache := e.cache.Cache env.now (n.NetworkID ++ "-" ++ chi_URLParam r env.keyFeature)
             (newProxy e.built (chi_URLParam r env.keyFeature) url)
           built := e.built + 1 }) := by
  have hne := featurePort_ne_empty _ _ _ hp
  simp only [Engine.Redirect, hn]
  rw [if_neg hne]
  simp only [hp, hu]

/-- For a node in the context, a feature with a port and a target that
parses, the last effect of `Redirect` forwards the request. -/
theorem Redirect_forwards (env : Env) (e : Engine) (r : Request) (n : NodeInfo) (port : String)
    (url : URL) (hn : r.ctxNetwork = .nodeInfo (some n))
    (hp : featurePort n (chi_URLParam r env.keyFeature) = some port)
    (hu : env.url_Parse (redirectTarget env r port) = .ok url) :
    ∃ proxy, (Engine.Redirect env e r).1.getLast? = some (.proxyServeHTTP proxy r) := by
  rw [Redirect_valid env e r n port url hn hp hu]
  split
  · exact ⟨_, rfl⟩
  · exact ⟨_, rfl⟩

/-! ## Engine.Redirect: feature routing; Engine.NetworkContext -/

/-- For a node in the context and a feature with port `port`, `Redirect` parses the target built from that port: a parse error is answered with 500, and otherwise the request is served by the cached proxy of the key, or by a new proxy for the parsed URL when the cache has none. -/
theorem Redirect_via_port (env : Env) (e : Engine) (r : Request) (n : NodeInfo) (port : String)
    (hn : r.ctxNetwork = .nodeInfo (some n))
    (hp : featurePort n (chi_URLParam r env.keyFeature) = some port) :
    (∀ err, env.url_Parse (redirectTarget env r port) = .error err →
      Engine.Redirect env e r = ([.httpError err 500], e)) ∧
    (∀ url, env.url_Parse (redirectTarget env r port) = .ok url →
      ∃ proxy, (Engine.Redirect env e r).1.getLast? = some (.proxyServeHTTP proxy r) ∧
        (e.cache.Get env.now (n.NetworkID ++ "-" ++ chi_URLParam r env.keyFeature) = some proxy ∨
         (e.cache.Get env.now (n.NetworkID ++ "-" ++ chi_URLParam r env.keyFeature) = none ∧
          proxy = newProxy e.built (chi_URLParam r env.keyFeature) url))) := by
  constructor
  · intro err hu
    have hne := featurePort_ne_empty _ _ _ hp
    simp only [Engine.Redirect, hn]
    rw [if_neg hne]
    simp only [hp, hu]
  · intro url hu
    rw [Redirect_valid env e r n port url hn hp hu]
    cases hc : e.cache.Get env.now (n.NetworkID ++ "-" ++ chi_URLParam r env.keyFeature) with
    | none => exact ⟨_, rfl, Or.inr ⟨rfl, rfl⟩⟩
    | some p => exact ⟨p, rfl, Or.inl rfl⟩

/-- C3: for every request that reaches `Redirect` with a node in its context, the target is built from the node's API port when the feature is exactly `api` and from the node's swarm port when it is exactly `swarm` (the port stands after the private host and a colon in the target string); for every other feature value, the empty one included, the response is 400 and that is the only effect: no proxy is looked up, built, cached or served, and the engine is unchanged. -/
theorem Redirect_feature_routing (env : Env) (e : Engine) (r : Request) (n : NodeInfo)
    (hn : r.ctxNetwork = .nodeInfo (some n)) :
    (∀ port, redirectTarget env r port =
      (if r.URLScheme ≠ "" then r.URLScheme ++ "://" else "http://") ++
        (env.Private ++ ":" ++ port) ++ r.RequestURI) ∧
    (chi_URLParam r env.keyFeature = "api" →
      (∀ err, env.url_Parse (redirectTarget env r n.Ports.API) = .error err →
        Engine.Redirect env e r = ([.httpError err 500], e)) ∧
      (∀ url, env.url_Parse (redirectTarget env r n.Ports.API) = .ok url →
        ∃ proxy, (Engine.Redirect env e r).1.getLast? = some (.proxyServeHTTP proxy r) ∧
          (e.cache.Get env.now (n.NetworkID ++ "-" ++ "api") = some proxy ∨
           (e.cache.Get env.now (n.NetworkID ++ "-" ++ "api") = none ∧
            proxy = newProxy e.built "api" url)))) ∧
    (chi_URLParam r env.keyFeature = "swarm" →
      (∀ err, env.url_Parse (redirectTarget env r n.Ports.Swarm) = .error err →
        Engine.Redirect env e r = ([.httpError err 500], e)) ∧
      (∀ url, env.url_Parse (redirectTarget env r n.Ports.Swarm) = .ok url →
        ∃ proxy, (Engine.Redirect env e r).1.getLast? = some (.proxyServeHTTP proxy r) ∧
          (e.cache.Get env.now (n.NetworkID ++ "-" ++ "swarm") = some proxy ∨
           (e.cache.Get env.now (n.NetworkID ++ "-" ++ "swarm") = none ∧
            proxy = newProxy e.built "swarm" url)))) ∧
    (chi_URLParam r env.keyFeature ≠ "api" → chi_URLParam r env.keyFeature ≠ "swarm" →
      Engine.Redirect env e r =
        ([.httpError
            (if chi_URLParam r env.keyFeature = "" then "Bad Request"
             else "invalid feature \x27" ++ chi_URLParam r env.keyFeature ++ "\x27") 400], e)) := by
  refine ⟨fun _ => rfl, ?_, ?_, ?_⟩
  · intro hf
    have hp : featurePort n (chi_URLParam r env.keyFeature) = some n.Ports.API := by
      rw [hf]; rfl
    have := Redirect_via_port env e r n _ hn hp
    rw [hf] at this
    exact this
  · intro hf
    have hp : featurePort n (chi_URLParam r env.keyFeature) = some n.Ports.Swarm := by
      rw [hf]; rfl
    have := Redirect_via_port env e r n _ hn hp
    rw [hf] at this
    exact this
  · intro ha hs
    simp only [Engine.Redirect, hn]
    by_cases h0 : chi_URLParam r env.keyFeature = ""
    · simp [h0, http_StatusText]
    · simp [h0, featurePort, ha, hs]

/-- Witness for C3: the feature `gateway` on the registered network `foo` is answered with 400. -/
theorem Redirect_feature_routing_witness :
    ({ sampleRequest "foo" "gateway" "" with ctxNetwork := .nodeInfo (some sampleNode) } :
      Request).ctxNetwork = .nodeInfo (some sampleNode) ∧
    Engine.Redirect sampleEnv sampleEngine
      { sampleRequest "foo" "gateway" "" with ctxNetwork := .nodeInfo (some sampleNode) } =
      ([.httpError "invalid feature \x27gateway\x27" 400], sampleEngine) :=
  ⟨rfl, (Redirect_feature_routing sampleEnv sampleEngine
    { sampleRequest "foo" "gateway" "" with ctxNetwork := .nodeInfo (some sampleNode) }
    sampleNode rfl).2.2.2 (by decide) (by decide)⟩

/-- C10: when the registry's `Get` does not find `{net}`, the `NetworkContext` middleware responds 404 with the registry's error text and that is all it does, whatever the next handler is (it is not invoked); when `Get` finds it, the next handler runs on the request with that node in its context, and with `NetworkStatus` as the next handler the answer is 200 with status `registered`. -/
theorem NetworkContext_gate (env : Env) (next : HandlerFunc) (e : Engine) (r : Request) :
    (∀ err, e.reg.Get (chi_URLParam r env.keyNetwork) = .error err →
      Engine.NetworkContext env next e r =
        ([.regGet (chi_URLParam r env.keyNetwork), .httpError err 404], e)) ∧
    (∀ n, e.reg.Get (chi_URLParam r env.keyNetwork) = .ok n →
      Engine.NetworkContext env next e r =
        (.regGet (chi_URLParam r env.keyNetwork) ::
          .next { r with ctxNetwork := .nodeInfo (some n) } ::
          (next e { r with ctxNetwork := .nodeInfo (some n) }).1,
         (next e { r with ctxNetwork := .nodeInfo (some n) }).2)) ∧
    (∀ n, e.reg.Get (chi_URLParam r env.keyNetwork) = .ok n →
      Engine.NetworkContext env Engine.NetworkStatus e r =
        ([.regGet (chi_URLParam r env.keyNetwork),
          .next { r with ctxNetwork := .nodeInfo (some n) },
          .WriteHeader 200, .renderJSON [("status", "registered")]], e)) := by
  refine ⟨?_, ?_, ?_⟩
  · intro err h
    simp [Engine.NetworkContext, h]
  · intro n h
    simp [Engine.NetworkContext, h]
  · intro n h
    simp [Engine.NetworkContext, h, Engine.NetworkStatus]

/-! ## ipfs client: waitForNode, CreateNode, StopNode -/

/-- What the scan loop of `waitForNode` does: it returns nil exactly when some line has the marker and the context is not done at any line up to it, or when the stream ends without a scan error, no line has the marker, and the context is not done at any line. -/
theorem scanLoop_eq_none_iff (ctx : Context) (dockerID : String) (ending : ScanEnd)
    (lines : List String) (i : Nat) :
    scanLoop ctx dockerID ending lines i = none ↔
      (∃ k, ∃ hk : k < lines.length,
        strings_Contains (lines.get ⟨k, hk⟩) "Daemon is ready" = true ∧
        ∀ j, j ≤ k → ctx.Done (i + j) = false) ∨
      (ending = .eof ∧
        (∀ line ∈ lines, strings_Contains line "Daemon is ready" = false) ∧
        ∀ j, j < lines.length → ctx.Done (i + j) = false) := by
  induction lines generalizing i with
  | nil =>
    cases ending <;> simp [scanLoop]
  | cons line rest ih =>
    simp only [scanLoop]
    by_cases hd : ctx.Done i = true
    · simp only [hd, if_true]
      constructor
      · intro h; cases h
      · rintro (⟨k, hk, _, hj⟩ | ⟨_, _, hj⟩)
        · have := hj 0 (Nat.zero_le _)
          simp [hd] at this
        · have := hj 0 (by simp)
          simp [hd] at this
    · simp only [Bool.not_eq_true] at hd
      by_cases hm : strings_Contains line "Daemon is ready" = true
      · simp only [hd, hm, if_true]
        constructor
        · intro _
          left
          refine ⟨0, by simp, by simpa using hm, ?_⟩
          intro j hj
          have : j = 0 := by omega
          subst this
          simpa using hd
        · intro _; trivial
      · simp only [Bool.not_eq_true] at hm
        simp only [hd, hm]
        rw [show (if false = true then some ("cancelled wait for " ++ dockerID)
              else if false = true then none else scanLoop ctx dockerID ending rest (i + 1)) =
              scanLoop ctx dockerID ending rest (i + 1) from by simp]
        rw [ih (i + 1)]
        constructor
        · rintro (⟨k, hk, hc, hj⟩ | ⟨he, hl, hj⟩)
          · left
            refine ⟨k + 1, by simpa using hk, by simpa using hc, ?_⟩
            intro j hjk
            cases j with
            | zero => simpa using hd
            | succ j =>
              have := hj j (by omega)
              rw [show i + (j + 1) = i + 1 + j from by omega]
              exact this
          · right
            refine ⟨he, ?_, ?_⟩
            · intro l hl1
              rcases List.mem_cons.mp hl1 with h | h
              · rw [h]; exact hm
              · exact hl l h
            · intro j hjl
              cases j with
              | zero => simpa using hd
              | succ j =>
                have := hj j (by simpa using hjl)
                rw [show i + (j + 1) = i + 1 + j from by omega]
                exact this
        · rintro (⟨k, hk, hc, hj⟩ | ⟨he, hl, hj⟩)
          · cases k with
            | zero =>
              simp at hc
              rw [hm] at hc
              cases hc
            | succ k =>
              left
              refine ⟨k, by simpa using hk, by simpa using hc, ?_⟩
              intro j hjk
              have := hj (j + 1) (by omega)
              rw [show i + 1 + j = i + (j + 1) from by omega]
              exact this
          · right
            refine ⟨he, fun l hl1 => hl l (List.mem_cons_of_mem _ hl1), ?_⟩
            intro j hjl
            have := hj (j + 1) (by simpa using hjl)
            rw [show i + 1 + j = i + (j + 1) from by omega]
            exact this

/-- C4, the code at the failing input: the log stream of a daemon that exits early has two lines, neither containing `Daemon is ready`, and then ends; the context is never cancelled. `waitForNode` returns nil (the result of `scanner.Err()` at the end of a stream), that is success without the marker, and `CreateNode` on that runtime returns nil as well. -/
theorem waitForNode_eof_without_marker :
    (∀ line ∈ sampleDeadLogs.lines, strings_Contains line "Daemon is ready" = false) ∧
    sampleRuntime.ContainerLogs "c0ffee" = .ok sampleDeadLogs ∧
    client.waitForNode sampleRuntime ⟨none⟩ "c0ffee" =
      ([.ContainerLogs "c0ffee" true true, .logsClose], none) ∧
    (client.CreateNode sampleRuntime sampleClient ⟨none⟩ (some sampleNewNode)
      ⟨some "key", none, false⟩).err = none := by
  refine ⟨by decide, rfl, by decide, by decide⟩

/-- C5, as stated, fails: with a swarm key that is present and of length zero (a non-nil empty slice) the guard `opts.SwarmKey == nil` does not fire: `CreateNode` creates the data directory and writes an empty `swarm.key`, and its error is not the invalid-configuration error. -/
theorem CreateNode_empty_key_passes_guard :
    (client.CreateNode sampleRuntime sampleClient ⟨none⟩ (some sampleNewNode)
      ⟨some "", none, false⟩).calls.take 2 =
      [.MkdirAll "/srv/data/ipfs/foo" 0o700,
       .WriteFile "/srv/data/ipfs/foo/swarm.key" "" 0o700] ∧
    (client.CreateNode sampleRuntime sampleClient ⟨none⟩ (some sampleNewNode)
      ⟨some "", none, false⟩).err ≠ some "invalid configuration provided" := by
  refine ⟨by decide, by decide⟩

/-- C5, amended: for every call of `CreateNode` whose node is nil, whose network id is empty, or whose swarm key is absent (nil), `CreateNode` fails with the invalid-configuration error, makes no call to the file system or to the container runtime, and leaves the node unchanged. -/
theorem CreateNode_invalid_configuration (rt : Runtime) (c : client) (ctx : Context)
    (node : Option NodeInfo) (opts : NodeOpts)
    (h : node = none ∨ (∃ n, node = some n ∧ n.NetworkID = "") ∨ opts.SwarmKey = none) :
    client.CreateNode rt c ctx node opts = ⟨[], node, some "invalid configuration provided"⟩ := by
  rcases h with h | ⟨n, h, hid⟩ | h
  · subst h
    simp [client.CreateNode]
  · subst h
    cases hk : opts.SwarmKey <;> simp [client.CreateNode, hk, hid]
  · cases node <;> simp [client.CreateNode, h]

/-- Witness for C5: the nil node. -/
theorem CreateNode_invalid_configuration_witness :
    ((none : Option NodeInfo) = none ∨ (∃ n, (none : Option NodeInfo) = some n ∧ n.NetworkID = "") ∨
      (⟨some "key", none, false⟩ : NodeOpts).SwarmKey = none) ∧
    client.CreateNode sampleRuntime sampleClient ⟨none⟩ none ⟨some "key", none, false⟩ =
      ⟨[], none, some "invalid configuration provided"⟩ :=
  ⟨Or.inl rfl, CreateNode_invalid_configuration sampleRuntime sampleClient ⟨none⟩ none
    ⟨some "key", none, false⟩ (Or.inl rfl)⟩

/-- C9, as stated, fails: when `ContainerStop` fails (the container is already gone) `StopNode` returns that error at once; the container is not removed, the data directory is not deleted, and the result is not the result of the data-directory removal (which would be nil here). -/
theorem StopNode_stop_failure_returns_early :
    sampleRuntimeStopFails.RemoveAll (sampleClient.getDataDir sampleRuntimeStopFails "foo") = none ∧
    client.StopNode sampleRuntimeStopFails sampleClient (some sampleNode) =
      ⟨[.ContainerStop "c0ffee" 10], some sampleNode, some "No such container: c0ffee"⟩ := by
  refine ⟨rfl, by decide⟩

/-- C9, amended: for every non-nil node, `StopNode` stops the container with a 10-second grace period; if the stop fails it returns that error and does nothing else; otherwise it removes the container (with links and volumes), ignoring the result of the removal, then recursively deletes the node's data directory, and its result is the result of that deletion. -/
theorem StopNode_steps (rt : Runtime) (c : client) (n : NodeInfo) :
    (∀ err, rt.ContainerStop n.DockerID = some err →
      client.StopNode rt c (some n) = ⟨[.ContainerStop n.DockerID 10], some n, some err⟩) ∧
    (rt.ContainerStop n.DockerID = none →
      client.StopNode rt c (some n) =
        ⟨[.ContainerStop n.DockerID 10, .ContainerRemove n.DockerID true true,
          .RemoveAll (c.getDataDir rt n.NetworkID)],
         some n, rt.RemoveAll (c.getDataDir rt n.NetworkID)⟩) := by
  constructor
  · intro err h
    simp [client.StopNode, h]
  · intro h
    simp [client.StopNode, h]

/-! ## Orchestrator: NetworkDown, New, NetworkUp -/

/-- C6, as stated, fails: over a database whose updates never fail, `NetworkDown` still returns an error for the empty network name (before any call) and for a network that the registry's `Get` does not find (before `StopNode`, `Deregister` and the database update). -/
theorem NetworkDown_errors_without_database_failure :
    (∀ name fields, sampleOrchestrator.nm.UpdateNetworkByName name fields = none) ∧
    Orchestrator.NetworkDown sampleOrchestrator "" = ([], some "invalid network name provided") ∧
    Orchestrator.NetworkDown sampleOrchestrator "bar" =
      ([.log "info" "network up process started", .Get "bar",
        .log "info" "could not find node in registry"],
       some "failed to get node for network bar from registry: node for network \x27bar\x27 not found") := by
  refine ⟨fun _ _ => rfl, by decide, by decide⟩

/-- C6, amended: for every network name, `NetworkDown` returns an error only if the name is empty, the registry's `Get` fails, or the database update fails (and in each of those cases it does). Once `Get` has found the node, the calls are `StopNode`, `Deregister` and the database update, in that order, whatever `StopNode` and `Deregister` answer: their failures are logged (at error and at warn level) and the result is that of the database update alone. -/
theorem NetworkDown_steps (o : Orchestrator) (network : String) :
    ((Orchestrator.NetworkDown o network).2 ≠ none ↔
      network = "" ∨ (∃ err, o.reg.Get network = .error err) ∨
      (∃ err, o.nm.UpdateNetworkByName network
        [("activated", .time 0), ("api_url", .str "")] = some err)) ∧
    (network ≠ "" → ∀ node, o.reg.Get network = .ok node →
      (Orchestrator.NetworkDown o network).1.filter (fun c => !c.isLog) =
        [.Get network, .StopNode node, .Deregister network,
         .UpdateNetworkByName network [("activated", .time 0), ("api_url", .str "")]] ∧
      (Orchestrator.NetworkDown o network).2 =
        (o.nm.UpdateNetworkByName network [("activated", .time 0), ("api_url", .str "")]).map
          (fun err => "failed to update network \x27" ++ network ++ "\x27: " ++ err) ∧
      (∀ err, o.client.StopNode node = some err →
        .log "error" "error occured while stopping node" ∈ (Orchestrator.NetworkDown o network).1) ∧
      (∀ err, o.reg.Deregister network = some err →
        .log "warn" "error occured while deregistering node" ∈
          (Orchestrator.NetworkDown o network).1)) := by
  constructor
  · by_cases h0 : network = ""
    · simp [Orchestrator.NetworkDown, h0]
    · cases hg : o.reg.Get network with
      | error err => simp [Orchestrator.NetworkDown, h0, hg]
      | ok node =>
        cases hu : o.nm.UpdateNetworkByName network
          [("activated", .time 0), ("api_url", .str "")] <;>
          simp [Orchestrator.NetworkDown, h0, hg, hu]
  · intro h0 node hg
    cases hu : o.nm.UpdateNetworkByName network
        [("activated", .time 0), ("api_url", .str "")] <;>
      cases hs : o.client.StopNode node <;>
      cases hd : o.reg.Deregister network <;>
      simp [Orchestrator.NetworkDown, h0, hg, hu, hs, hd, OrchCall.isLog, List.filter]


/-- The orchestrator that `New` returns has the empty host, whatever host was passed: the struct literal does not set the field. -/
theorem New_host_zero {P G : Type} (b : Boot P G) (host : String) (c : NodeClient) (ports : P)
    (pg : G) (dev : Bool) (o : Orchestrator) (h : New b host c ports pg dev = .ok o) :
    o.host = "" := by
  unfold New at h
  split at h
  · cases h
  · split at h
    · cases h
    · cases h
      rfl

/-- C7, the code at the failing input: the orchestrator built by `New` with host `10.0.0.5` brings network `foo` up successfully; `Register` assigned API port 5055; the record written to the database has `api_url` equal to `:5055`, not `10.0.0.5:5055`. -/
theorem NetworkUp_after_New_api_url :
    ∃ o, New sampleBoot "10.0.0.5" sampleNodeClient () () false = .ok o ∧
      (sampleRegistry.Register
        { NetworkID := "foo", JobID := "job-1", Ports := ⟨"", "", ""⟩,
          DockerID := "", ContainerName := "", DataDir := "" }).1.Ports.API = "5055" ∧
      (Orchestrator.NetworkUp sampleOrchEnv o "foo").2 = none ∧
      OrchCall.UpdateNetwork
        { ID := 7, Name := "foo", APIURL := ":5055", SwarmKey := "/key/swarm/psk/1.0.0/",
          Activated := 1541116800 } ∈ (Orchestrator.NetworkUp sampleOrchEnv o "foo").1 ∧
      OrchCall.UpdateNetwork
        { ID := 7, Name := "foo", APIURL := "10.0.0.5:5055", SwarmKey := "/key/swarm/psk/1.0.0/",
          Activated := 1541116800 } ∉ (Orchestrator.NetworkUp sampleOrchEnv o "foo").1 := by
  refine ⟨_, rfl, by decide, by decide, by decide, by decide⟩

/-- C8: for every network name, a failed step of `NetworkUp` ends the call with an error and the calls made are exactly those up to the failed step: an empty name makes no call at all; a failed database lookup (or a failure to derive the node options) is followed by no `Register`; a failed `Register` is followed by no `CreateNode` and no database update; a failed `CreateNode` is followed by no database update and by no `Deregister`, so the node stays registered; a failed database update is the last call, with no `StopNode` and no `Deregister` after it, and is returned as an error. -/
theorem NetworkUp_aborts (env : OrchEnv) (o : Orchestrator) (network : String) :
    (network = "" →
      Orchestrator.NetworkUp env o network = ([], some "invalid network name provided")) ∧
    (network ≠ "" → ∀ err, o.nm.GetNetworkByName network = .error err →
      Orchestrator.NetworkUp env o network =
        ([.log "info" "network up process started", .GetNetworkByName network],
         some ("no network with name \x27" ++ network ++ "\x27 found"))) ∧
    (network ≠ "" → ∀ n err, o.nm.GetNetworkByName network = .ok n →
      env.getOptionsFromDatabaseEntry n = .error err →
      Orchestrator.NetworkUp env o network =
        ([.log "info" "network up process started", .GetNetworkByName network,
          .log "info" (fmt_Sprint_db_id "network retrieved from database" n.ID)],
         some ("failed to configure network: " ++ err))) ∧
    (network ≠ "" → ∀ n opts node1 err, o.nm.GetNetworkByName network = .ok n →
      env.getOptionsFromDatabaseEntry n = .ok opts →
      o.reg.Register
        { NetworkID := network, JobID := env.generateID, Ports := ⟨"", "", ""⟩,
          DockerID := "", ContainerName := "", DataDir := "" } = (node1, some err) →
      Orchestrator.NetworkUp env o network =
        ([.log "info" "network up process started", .GetNetworkByName network,
          .log "info" (fmt_Sprint_db_id "network retrieved from database" n.ID),
          .Register { NetworkID := network, JobID := env.generateID, Ports := ⟨"", "", ""⟩,
                      DockerID := "", ContainerName := "", DataDir := "" }],
         some ("failed to allocate resources for network \x27" ++ network ++ "\x27: " ++ err))) ∧
    (network ≠ "" → ∀ n opts node1 node2 err, o.nm.GetNetworkByName network = .ok n →
      env.getOptionsFromDatabaseEntry n = .ok opts →
      o.reg.Register
        { NetworkID := network, JobID := env.generateID, Ports := ⟨"", "", ""⟩,
          DockerID := "", ContainerName := "", DataDir := "" } = (node1, none) →
      o.client.CreateNode node1 opts = (node2, some err) →
      Orchestrator.NetworkUp env o network =
        ([.log "info" "network up process started", .GetNetworkByName network,
          .log "info" (fmt_Sprint_db_id "network retrieved from database" n.ID),
          .Register { NetworkID := network, JobID := env.generateID, Ports := ⟨"", "", ""⟩,
                      DockerID := "", ContainerName := "", DataDir := "" },
          .log "info" "network registered, creating node",
          .CreateNode node1 opts],
         some ("failed to instantiate node for network \x27" ++ network ++ "\x27: " ++ err))) ∧
    (network ≠ "" → ∀ n opts node1 node2 err, o.nm.GetNetworkByName network = .ok n →
      env.getOptionsFromDatabaseEntry n = .ok opts →
      o.reg.Register
        { NetworkID := network, JobID := env.generateID, Ports := ⟨"", "", ""⟩,
          DockerID := "", ContainerName := "", DataDir := "" } = (node1, none) →
      o.client.CreateNode node1 opts = (node2, none) →
      o.nm.UpdateNetwork
        { n with APIURL := o.host ++ ":" ++ node2.Ports.API
                 SwarmKey := bytesToString opts.SwarmKey
                 Activated := env.now } = some err →
      Orchestrator.NetworkUp env o network =
        ([.log "info" "network up process started", .GetNetworkByName network,
          .log "info" (fmt_Sprint_db_id "network retrieved from database" n.ID),
          .Register { NetworkID := network, JobID := env.generateID, Ports := ⟨"", "", ""⟩,
                      DockerID := "", ContainerName := "", DataDir := "" },
          .log "info" "network registered, creating node",
          .CreateNode node1 opts,
          .log "info" "node created",
          .UpdateNetwork
            { n with APIURL := o.host ++ ":" ++ node2.Ports.API
                     SwarmKey := bytesToString opts.SwarmKey
                     Activated := env.now }],
         some ("failed to update network \x27" ++ network ++ "\x27: " ++ err))) := by
  refine ⟨?_, ?_, ?_, ?_, ?_, ?_⟩
  · intro h0
    simp [Orchestrator.NetworkUp, h0]
  · intro h0 err hg
    simp [Orchestrator.NetworkUp, h0, hg]
  · intro h0 n err hg ho
    simp [Orchestrator.NetworkUp, h0, hg, ho]
  · intro h0 n opts node1 err hg ho hr
    simp [Orchestrator.NetworkUp, h0, hg, ho, hr]
  · intro h0 n opts node1 node2 err hg ho hr hc
    simp [Orchestrator.NetworkUp, h0, hg, ho, hr, hc]
  · intro h0 n opts node1 node2 err hg ho hr hc hw
    simp [Orchestrator.NetworkUp, h0, hg, ho, hr, hc, hw]

/-- When `NetworkUp` succeeds, the record written to the database is the record read, with `api_url` set to the orchestrator's host, a colon and the API port of the node, `swarm_key` set to the swarm key of the derived options, and `activated` set to the clock reading. -/
theorem NetworkUp_record (env : OrchEnv) (o : Orchestrator) (network : String)
    (h : (Orchestrator.NetworkUp env o network).2 = none) :
    ∃ n opts node1 node2, o.nm.GetNetworkByName network = .ok n ∧
      env.getOptionsFromDatabaseEntry n = .ok opts ∧
      o.reg.Register
        { NetworkID := network, JobID := env.generateID, Ports := ⟨"", "", ""⟩,
          DockerID := "", ContainerName := "", DataDir := "" } = (node1, none) ∧
      o.client.CreateNode node1 opts = (node2, none) ∧
      OrchCall.UpdateNetwork
        { n with APIURL := o.host ++ ":" ++ node2.Ports.API
                 SwarmKey := bytesToString opts.SwarmKey
                 Activated := env.now } ∈ (Orchestrator.NetworkUp env o network).1 := by
  by_cases h0 : network = ""
  · simp [Orchestrator.NetworkUp, h0] at h
  · cases hg : o.nm.GetNetworkByName network with
    | error err => simp [Orchestrator.NetworkUp, h0, hg] at h
    | ok n =>
      cases ho : env.getOptionsFromDatabaseEntry n with
      | error err => simp [Orchestrator.NetworkUp, h0, hg, ho] at h
      | ok opts =>
        rcases hr : o.reg.Register
          { NetworkID := network, JobID := env.generateID, Ports := ⟨"", "", ""⟩,
            DockerID := "", ContainerName := "", DataDir := "" } with ⟨node1, _ | err⟩
        · rcases hc : o.client.CreateNode node1 opts with ⟨node2, _ | err⟩
          · refine ⟨n, opts, node1, node2, rfl, ho, rfl, hc, ?_⟩
            cases hu : o.nm.UpdateNetwork
                { n with APIURL := o.host ++ ":" ++ node2.Ports.API
                         SwarmKey := bytesToString opts.SwarmKey
                         Activated := env.now } <;>
              simp [Orchestrator.NetworkUp, h0, hg, ho, hr, hc, hu]
          · simp [Orchestrator.NetworkUp, h0, hg, ho, hr, hc] at h
        · simp [Orchestrator.NetworkUp, h0, hg, ho, hr] at h

/-! ## The theorems at sample inputs -/

/-- Witness for C1: the header `Bearer x` splits into the empty piece and the token `x`; with a parser that accepts it as a valid token with `id` = `u1`, the user is `u1` and the error nil. -/
theorem getUserFromJWT_cases_witness :
    strings_Split (Header.Get (sampleRequest "foo" "api" "Bearer x").Header "Authorization")
      "Bearer " = ["", "x"] ∧
    getUserFromJWT (fun (_ : String) (_ : Unit) => .ok ⟨.MapClaims [("id", .str "u1")], true⟩)
      (sampleRequest "foo" "api" "Bearer x") () = ("u1", none) :=
  ⟨by decide,
   ((getUserFromJWT_cases
      (fun (_ : String) (_ : Unit) => .ok ⟨.MapClaims [("id", .str "u1")], true⟩)
      (sampleRequest "foo" "api" "Bearer x") ()).2.2.2.1 "" "x" [] (by decide)).2.2
      [("id", .str "u1")] "u1" rfl rfl (by decide)⟩

/-- Witness for C6: with a node client whose `StopNode` fails, `NetworkDown` of the registered network `foo` logs the failure and returns nil. -/
theorem NetworkDown_steps_witness :
    sampleOrchestratorFailingClient.reg.Get "foo" = .ok sampleNode ∧
    sampleOrchestratorFailingClient.client.StopNode sampleNode = some "No such container: c0ffee" ∧
    (Orchestrator.NetworkDown sampleOrchestratorFailingClient "foo").2 = none ∧
    OrchCall.log "error" "error occured while stopping node" ∈
      (Orchestrator.NetworkDown sampleOrchestratorFailingClient "foo").1 :=
  ⟨rfl, rfl,
   ((NetworkDown_steps sampleOrchestratorFailingClient "foo").2 (by decide) sampleNode rfl).2.1,
   ((NetworkDown_steps sampleOrchestratorFailingClient "foo").2 (by decide) sampleNode rfl).2.2.1
     _ rfl⟩

/-- Witness for C8: with a node client whose `CreateNode` fails, `NetworkUp` of network `foo` ends after `CreateNode` with an error; the node was registered, and no database update and no `Deregister` follow. With a database whose update fails, `NetworkUp` ends after the update with an error, and no `StopNode` and no `Deregister` follow. -/
theorem NetworkUp_aborts_witness :
    sampleOrchestratorFailingClient.reg.Register
      { NetworkID := "foo", JobID := "job-1", Ports := ⟨"", "", ""⟩,
        DockerID := "", ContainerName := "", DataDir := "" } = (sampleNewNode, none) ∧
    Orchestrator.NetworkUp sampleOrchEnv sampleOrchestratorFailingClient "foo" =
      ([.log "info" "network up process started", .GetNetworkByName "foo",
        .log "info" (fmt_Sprint_db_id "network retrieved from database" 7),
        .Register { NetworkID := "foo", JobID := "job-1", Ports := ⟨"", "", ""⟩,
                    DockerID := "", ContainerName := "", DataDir := "" },
        .log "info" "network registered, creating node",
        .CreateNode sampleNewNode ⟨some "/key/swarm/psk/1.0.0/", none, false⟩],
       some ("failed to instantiate node for network \x27" ++ "foo" ++ "\x27: " ++
         "failed to start ipfs node: port is already allocated")) ∧
    Orchestrator.NetworkUp sampleOrchEnv sampleOrchestratorFailingDatabase "foo" =
      ([.log "info" "network up process started", .GetNetworkByName "foo",
        .log "info" (fmt_Sprint_db_id "network retrieved from database" 7),
        .Register { NetworkID := "foo", JobID := "job-1", Ports := ⟨"", "", ""⟩,
                    DockerID := "", ContainerName := "", DataDir := "" },
        .log "info" "network registered, creating node",
        .CreateNode sampleNewNode ⟨some "/key/swarm/psk/1.0.0/", none, false⟩,
        .log "info" "node created",
        .UpdateNetwork
          { sampleNetwork with
            APIURL := "10.0.0.5" ++ ":" ++ "5055"
            SwarmKey := bytesToString (some "/key/swarm/psk/1.0.0/")
            Activated := 1541116800 }],
       some ("failed to update network \x27" ++ "foo" ++ "\x27: " ++ "connection refused")) :=
  ⟨rfl,
   (NetworkUp_aborts sampleOrchEnv sampleOrchestratorFailingClient "foo").2.2.2.2.1 (by decide)
     sampleNetwork ⟨some "/key/swarm/psk/1.0.0/", none, false⟩ sampleNewNode sampleNewNode
     "failed to start ipfs node: port is already allocated" rfl rfl rfl rfl,
   (NetworkUp_aborts sampleOrchEnv sampleOrchestratorFailingDatabase "foo").2.2.2.2.2 (by decide)
     sampleNetwork ⟨some "/key/swarm/psk/1.0.0/", none, false⟩ sampleNewNode
     { sampleNewNode with DockerID := "c0ffee", ContainerName := "ipfs-foo",
                          DataDir := "/srv/data/ipfs/foo" }
     "connection refused" rfl rfl rfl rfl rfl⟩

/-- Witness for C9: on a runtime where every call succeeds, `StopNode` stops, removes, deletes the data directory and returns nil. -/
theorem StopNode_steps_witness :
    sampleRuntime.ContainerStop sampleNode.DockerID = none ∧
    client.StopNode sampleRuntime sampleClient (some sampleNode) =
      ⟨[.ContainerStop "c0ffee" 10, .ContainerRemove "c0ffee" true true,
        .RemoveAll (sampleClient.getDataDir sampleRuntime "foo")],
       some sampleNode, none⟩ :=
  ⟨rfl, (StopNode_steps sampleRuntime sampleClient sampleNode).2 rfl⟩

/-- Witness for C10: network `bar` is not registered; the middleware in front of `Redirect` answers 404 with the registry's text and the engine is unchanged. -/
theorem NetworkContext_gate_witness :
    sampleEngine.reg.Get "bar" = .error "node for network \x27bar\x27 not found" ∧
    Engine.NetworkContext sampleEnv (Engine.Redirect sampleEnv) sampleEngine
      (sampleRequest "bar" "api" "") =
      ([.regGet "bar", .httpError "node for network \x27bar\x27 not found" 404], sampleEngine) :=
  ⟨rfl,
   (NetworkContext_gate sampleEnv (Engine.Redirect sampleEnv) sampleEngine
     (sampleRequest "bar" "api" "")).1 _ rfl⟩

/-! ## Engine.Redirect: target URL, proxy cache, cache key -/

/-- C11: for every request that reaches `Redirect` with a node in its context and a valid feature, the target string is the scheme, `://`, the private host, `:`, the feature's port, then the request URI unchanged, where the scheme is the incoming URL's scheme when that is non-empty and `http` when it is empty; that string is what `url.Parse` is given: a parse error on it is answered with 500, and the parsed URL is the target of the proxy that is built when the cache has none. -/
theorem Redirect_target_url (env : Env) (e : Engine) (r : Request) (n : NodeInfo) (port : String)
    (hn : r.ctxNetwork = .nodeInfo (some n))
    (hp : featurePort n (chi_URLParam r env.keyFeature) = some port) :
    redirectTarget env r port =
      (if r.URLScheme = "" then "http" else r.URLScheme) ++ "://" ++ env.Private ++ ":" ++ port ++
        r.RequestURI ∧
    (∀ err, env.url_Parse
        ((if r.URLScheme = "" then "http" else r.URLScheme) ++ "://" ++ env.Private ++ ":" ++
          port ++ r.RequestURI) = .error err →
      Engine.Redirect env e r = ([.httpError err 500], e)) ∧
    (∀ url, env.url_Parse
        ((if r.URLScheme = "" then "http" else r.URLScheme) ++ "://" ++ env.Private ++ ":" ++
          port ++ r.RequestURI) = .ok url →
      ∃ proxy, (Engine.Redirect env e r).1.getLast? = some (.proxyServeHTTP proxy r) ∧
        (e.cache.Get env.now (n.NetworkID ++ "-" ++ chi_URLParam r env.keyFeature) = some proxy ∨
         (e.cache.Get env.now (n.NetworkID ++ "-" ++ chi_URLParam r env.keyFeature) = none ∧
          proxy = newProxy e.built (chi_URLParam r env.keyFeature) url ∧
          proxy.target = url))) := by
  have ht : redirectTarget env r port =
      (if r.URLScheme = "" then "http" else r.URLScheme) ++ "://" ++ env.Private ++ ":" ++ port ++
        r.RequestURI := by
    unfold redirectTarget
    by_cases hs : r.URLScheme = ""
    · simp [hs, String.append_assoc]
    · simp [hs, String.append_assoc]
  refine ⟨ht, ?_, ?_⟩
  · intro err hu
    rw [← ht] at hu
    exact (Redirect_via_port env e r n port hn hp).1 err hu
  · intro url hu
    rw [← ht] at hu
    obtain ⟨proxy, hl, hc⟩ := (Redirect_via_port env e r n port hn hp).2 url hu
    refine ⟨proxy, hl, ?_⟩
    rcases hc with hc | ⟨hc, hpx⟩
    · exact Or.inl hc
    · exact Or.inr ⟨hc, hpx, by rw [hpx]; rfl⟩

/-- Witness for C11: the request `/network/foo/api/v0/id` with an empty scheme and API port 5055 has the target `http://127.0.0.1:5055/network/foo/api/v0/id`. -/
theorem Redirect_target_url_witness :
    featurePort sampleNode (chi_URLParam
      { sampleRequest "foo" "api" "" with ctxNetwork := .nodeInfo (some sampleNode) }
      sampleEnv.keyFeature) = some "5055" ∧
    redirectTarget sampleEnv
      { sampleRequest "foo" "api" "" with ctxNetwork := .nodeInfo (some sampleNode) } "5055" =
      "http://127.0.0.1:5055/network/foo/api/v0/id" :=
  ⟨by decide,
   (Redirect_target_url sampleEnv sampleEngine
     { sampleRequest "foo" "api" "" with ctxNetwork := .nodeInfo (some sampleNode) }
     sampleNode "5055" rfl (by decide)).1.trans (by decide)⟩

/-- After `Cache(key, proxy)` at time `t`, `Get(key)` returns that proxy while the clock is before `t + ttl`, and nil from then on. -/
theorem cache_Get_Cache_same (c : cache) (t t2 : Nat) (key : String) (proxy : ReverseProxy) :
    (c.Cache t key proxy).Get t2 key = if t2 < t + c.ttl then some proxy else none := by
  simp [cache.Get, cache.Cache, List.find?]

/-- Storing a proxy under one key does not change what `Get` returns for another key. -/
theorem cache_Get_Cache_other (c : cache) (t t2 : Nat) (key other : String)
    (proxy : ReverseProxy) (h : other ≠ key) :
    (c.Cache t key proxy).Get t2 other = c.Get t2 other := by
  have hk : (key == other) = false := by
    simp only [beq_eq_false_iff_ne]
    exact fun h1 => h h1.symm
  have hf : ∀ l : List cacheEntry,
      (l.filter (fun e => e.key != key)).find? (fun e => e.key == other) =
        l.find? (fun e => e.key == other) := by
    intro l
    induction l with
    | nil => rfl
    | cons x xs ih =>
      by_cases hx : x.key = key
      · have hb : (x.key != key) = false := by simp [hx]
        have hxo : (x.key == other) = false := by rw [hx]; exact hk
        rw [List.filter_cons, List.find?_cons]
        simp only [hb, hxo]
        exact ih
      · have hb : (x.key != key) = true := by simp [hx]
        rw [List.filter_cons]
        simp only [hb, if_true]
        rw [List.find?_cons, List.find?_cons, ih]
  simp only [cache.Get, cache.Cache, List.find?, hk, hf]

/-- For a valid feature and a target that parses, a live proxy in the cache serves the request, and the engine is unchanged. -/
theorem Redirect_hit (env : Env) (e : Engine) (r : Request) (n : NodeInfo)
    (port : String) (url : URL) (proxy : ReverseProxy)
    (hn : r.ctxNetwork = .nodeInfo (some n))
    (hp : featurePort n (chi_URLParam r env.keyFeature) = some port)
    (hu : env.url_Parse (redirectTarget env r port) = .ok url)
    (hc : e.cache.Get env.now (n.NetworkID ++ "-" ++ chi_URLParam r env.keyFeature) =
      some proxy) :
    Engine.Redirect env e r =
      ([.cacheGet (n.NetworkID ++ "-" ++ chi_URLParam r env.keyFeature),
        .proxyServeHTTP proxy r], e) := by
  rw [Redirect_valid env e r n port url hn hp hu, hc]

/-- C12: for every request that reaches `Redirect` with a node in its context, a valid feature and a target that parses, the proxy is looked up under the key `<network_id>-<feature>`. When the cache returns a live proxy, that same instance serves the request and the engine, its cache included, is unchanged. When the cache returns nil, a new proxy is built for the parsed target URL, stored under that same key and used to serve the request; and every later request for the same network and feature (valid feature, target that parses) whose clock is before the time of the first plus the TTL is served by that same instance, with nothing built or stored. -/
theorem Redirect_proxy_cache (env : Env) (e : Engine) (r : Request) (n : NodeInfo)
    (port : String) (url : URL) (hn : r.ctxNetwork = .nodeInfo (some n))
    (hp : featurePort n (chi_URLParam r env.keyFeature) = some port)
    (hu : env.url_Parse (redirectTarget env r port) = .ok url) :
    (∀ proxy, e.cache.Get env.now (n.NetworkID ++ "-" ++ chi_URLParam r env.keyFeature) =
        some proxy →
      Engine.Redirect env e r =
        ([.cacheGet (n.NetworkID ++ "-" ++ chi_URLParam r env.keyFeature),
          .proxyServeHTTP proxy r], e)) ∧
    (e.cache.Get env.now (n.NetworkID ++ "-" ++ chi_URLParam r env.keyFeature) = none →
      (Engine.Redirect env e r).1 =
        [.cacheGet (n.NetworkID ++ "-" ++ chi_URLParam r env.keyFeature),
         .newProxy (chi_URLParam r env.keyFeature) url,
         .cacheCache (n.NetworkID ++ "-" ++ chi_URLParam r env.keyFeature)
           (newProxy e.built (chi_URLParam r env.keyFeature) url),
         .proxyServeHTTP (newProxy e.built (chi_URLParam r env.keyFeature) url) r] ∧
      (newProxy e.built (chi_URLParam r env.keyFeature) url).target = url ∧
      (Engine.Redirect env e r).2.cache =
        e.cache.Cache env.now (n.NetworkID ++ "-" ++ chi_URLParam r env.keyFeature)
          (newProxy e.built (chi_URLParam r env.keyFeature) url) ∧
      ∀ (t2 : Nat) (r2 : Request) (m : NodeInfo) (port2 : String) (url2 : URL),
        t2 < env.now + e.cache.ttl →
        r2.ctxNetwork = .nodeInfo (some m) → m.NetworkID = n.NetworkID →
        chi_URLParam r2 env.keyFeature = chi_URLParam r env.keyFeature →
        featurePort m (chi_URLParam r2 env.keyFeature) = some port2 →
        env.url_Parse (redirectTarget env r2 port2) = .ok url2 →
        Engine.Redirect { env with now := t2 } (Engine.Redirect env e r).2 r2 =
          ([.cacheGet (n.NetworkID ++ "-" ++ chi_URLParam r env.keyFeature),
            .proxyServeHTTP (newProxy e.built (chi_URLParam r env.keyFeature) url) r2],
           (Engine.Redirect env e r).2)) := by
  have hv := Redirect_valid env e r n port url hn hp hu
  constructor
  · intro proxy hc
    rw [hv, hc]
  · intro hc
    rw [hc] at hv
    simp only at hv
    refine ⟨by rw [hv], rfl, by rw [hv], ?_⟩
    intro t2 r2 m port2 url2 ht hm hid hf hp2 hu2
    have hget : (Engine.Redirect env e r).2.cache.Get t2
        (m.NetworkID ++ "-" ++ chi_URLParam r2 env.keyFeature) =
        some (newProxy e.built (chi_URLParam r env.keyFeature) url) := by
      rw [hv, hid, hf]
      simp only
      rw [cache_Get_Cache_same, if_pos ht]
    have h2 := Redirect_hit { env with now := t2 } (Engine.Redirect env e r).2 r2 m port2 url2
      (newProxy e.built (chi_URLParam r env.keyFeature) url) hm hp2 hu2 hget
    simp only [hid, hf] at h2
    exact h2

/-- Two keys with the same feature have the same network id. -/
theorem key_suffix_cancel (a b suffix : String) (h : a ++ "-" ++ suffix = b ++ "-" ++ suffix) :
    a = b := by
  have hd := congrArg String.data h
  simp only [String.data_append] at hd
  have h1 := (List.append_left_inj _).mp hd
  have h2 := (List.append_left_inj _).mp h1
  exact String.ext h2

/-- A key of feature `api` is never a key of feature `swarm`: the two end in different characters. -/
theorem key_api_ne_swarm (a b : String) : a ++ "-" ++ "api" ≠ b ++ "-" ++ "swarm" := by
  intro h
  have hd := congrArg (fun s => s.data.reverse) h
  simp [String.data_append] at hd

/-- A feature with a port is `api` or `swarm`. -/
theorem featurePort_isSome (n : NodeInfo) (f : String) (h : featurePort n f ≠ none) :
    f = "api" ∨ f = "swarm" := by
  unfold featurePort at h
  by_cases ha : f = "api"
  · exact Or.inl ha
  · by_cases hs : f = "swarm"
    · exact Or.inr hs
    · simp [ha, hs] at h

/-- Every cache lookup of `Redirect` is for the key built from the network id of the node in the context and a feature that has a port. -/
theorem Redirect_cacheGet_key (env : Env) (e : Engine) (r : Request) (k : String)
    (h : Effect.cacheGet k ∈ (Engine.Redirect env e r).1) :
    ∃ n, r.ctxNetwork = .nodeInfo (some n) ∧
      featurePort n (chi_URLParam r env.keyFeature) ≠ none ∧
      k = n.NetworkID ++ "-" ++ chi_URLParam r env.keyFeature := by
  simp only [Engine.Redirect] at h
  split at h
  · rename_i n hn
    split at h
    · simp at h
    · split at h
      · simp at h
      · rename_i port hp
        split at h
        · simp at h
        · split at h
          · simp at h
            exact ⟨n, hn, by simp [hp], h⟩
          · simp at h
            exact ⟨n, hn, by simp [hp], h⟩
  · simp at h

/-- C13: the proxy-cache key built by `Redirect` is injective on the pairs it is built for: for all nodes with network ids `a` and `b` (which may themselves contain `-`) and all features `f` and `g` with a port (`api` or `swarm`), if the key `a-f` equals the key `b-g` then `a = b` and `f = g`; so two requests whose `Redirect` looks up the same key are for the same network id and the same feature. -/
theorem cache_key_injective :
    (∀ (n m : NodeInfo) (f g : String), featurePort n f ≠ none → featurePort m g ≠ none →
      n.NetworkID ++ "-" ++ f = m.NetworkID ++ "-" ++ g → n.NetworkID = m.NetworkID ∧ f = g) ∧
    (∀ (env : Env) (e1 e2 : Engine) (r1 r2 : Request) (n m : NodeInfo) (k : String),
      r1.ctxNetwork = .nodeInfo (some n) → r2.ctxNetwork = .nodeInfo (some m) →
      Effect.cacheGet k ∈ (Engine.Redirect env e1 r1).1 →
      Effect.cacheGet k ∈ (Engine.Redirect env e2 r2).1 →
      n.NetworkID = m.NetworkID ∧
        chi_URLParam r1 env.keyFeature = chi_URLParam r2 env.keyFeature) := by
  have hinj : ∀ (n m : NodeInfo) (f g : String), featurePort n f ≠ none →
      featurePort m g ≠ none →
      n.NetworkID ++ "-" ++ f = m.NetworkID ++ "-" ++ g → n.NetworkID = m.NetworkID ∧ f = g := by
    intro n m f g hf hg h
    rcases featurePort_isSome n f hf with hf1 | hf1 <;>
      rcases featurePort_isSome m g hg with hg1 | hg1
    · subst hf1; subst hg1
      exact ⟨key_suffix_cancel _ _ _ h, rfl⟩
    · subst hf1; subst hg1
      exact absurd h (key_api_ne_swarm _ _)
    · subst hf1; subst hg1
      exact absurd h.symm (key_api_ne_swarm _ _)
    · subst hf1; subst hg1
      exact ⟨key_suffix_cancel _ _ _ h, rfl⟩
  refine ⟨hinj, ?_⟩
  intro env e1 e2 r1 r2 n m k hn hm h1 h2
  obtain ⟨n1, hn1, hf1, hk1⟩ := Redirect_cacheGet_key env e1 r1 k h1
  obtain ⟨m1, hm1, hf2, hk2⟩ := Redirect_cacheGet_key env e2 r2 k h2
  rw [hn] at hn1
  rw [hm] at hm1
  cases hn1
  cases hm1
  exact hinj n m _ _ hf1 hf2 (hk1.symm.trans hk2)

/-- Witness for C12: the cache of the sample engine is empty at time 100 with TTL 1800; after a first request for `foo` and `api`, a second one at time 1899 is served by the proxy instance 0 that the first one built. -/
theorem Redirect_proxy_cache_witness :
    sampleEngine.cache.Get sampleEnv.now ("foo" ++ "-" ++ "api") = none ∧
    Engine.Redirect { sampleEnv with now := 1899 }
      (Engine.Redirect sampleEnv sampleEngine
        { sampleRequest "foo" "api" "" with ctxNetwork := .nodeInfo (some sampleNode) }).2
      { sampleRequest "foo" "api" "Bearer x" with ctxNetwork := .nodeInfo (some sampleNode) } =
      ([.cacheGet "foo-api",
        .proxyServeHTTP ⟨0, "api", ⟨"http://127.0.0.1:5055/network/foo/api/v0/id"⟩⟩
          { sampleRequest "foo" "api" "Bearer x" with ctxNetwork := .nodeInfo (some sampleNode) }],
       (Engine.Redirect sampleEnv sampleEngine
        { sampleRequest "foo" "api" "" with ctxNetwork := .nodeInfo (some sampleNode) }).2) :=
  ⟨by decide,
   ((Redirect_proxy_cache sampleEnv sampleEngine
      { sampleRequest "foo" "api" "" with ctxNetwork := .nodeInfo (some sampleNode) }
      sampleNode "5055" ⟨"http://127.0.0.1:5055/network/foo/api/v0/id"⟩ rfl (by decide) rfl).2
      (by decide)).2.2.2 1899
      { sampleRequest "foo" "api" "Bearer x" with ctxNetwork := .nodeInfo (some sampleNode) }
      sampleNode "5055" ⟨"http://127.0.0.1:5055/network/foo/api/v0/id"⟩ (by decide) rfl rfl rfl
      (by decide) rfl⟩

/-- Witness for C13: two nodes of network `foo` and feature `api`. -/
theorem cache_key_injective_witness :
    featurePort sampleNode "api" ≠ none ∧ featurePort sampleNewNode "api" ≠ none ∧
    (sampleNode.NetworkID = sampleNewNode.NetworkID ∧ "api" = "api") :=
  ⟨by decide, by decide,
   cache_key_injective.1 sampleNode sampleNewNode "api" "api" (by decide) (by decide) rfl⟩

/-! ## The authorization step; NetworkUp with a failing database -/

/-- The authorizing handler at sample inputs: a checker that fails gives 401 after the call, a token the parser rejects gives 401 without a call of the checker, and without a checker the effects are those of `Redirect` (open access). -/
theorem authorize_sample_runs :
    (Engine.authorize sampleEnv sampleParse () (some failingChecker.asChecker)
      (Engine.Redirect sampleEnv) sampleEngine
      { sampleRequest "foo" "api" "Bearer h.p.s" with
        ctxNetwork := .nodeInfo (some sampleNode) }).1 =
      [.CheckIfUserHasAccessToNetwork "u1" "foo", .handler (.httpError "db down" 401)] ∧
    (Engine.authorize sampleEnv sampleParse () (some denyingChecker.asChecker)
      (Engine.Redirect sampleEnv) sampleEngine
      { sampleRequest "foo" "api" "Bearer x" with
        ctxNetwork := .nodeInfo (some sampleNode) }).1 =
      [.handler (.httpError "invalid authentication provided" 401)] ∧
    (Engine.authorize sampleEnv sampleParse () none
      (Engine.Redirect sampleEnv) sampleEngine
      { sampleRequest "foo" "api" "" with
        ctxNetwork := .nodeInfo (some sampleNode) }).1 =
      ((Engine.Redirect sampleEnv sampleEngine
        { sampleRequest "foo" "api" "" with
          ctxNetwork := .nodeInfo (some sampleNode) }).1.map .handler) := by
  refine ⟨by decide, by decide, rfl⟩

/-- The orchestrator over a database whose update fails: `NetworkUp` of `foo` ends with the failed `UpdateNetwork` and returns its error; the third call is the log entry whose text `fmt.Sprint` builds from the message, the key and the record id. -/
theorem NetworkUp_update_failure_sample :
    Orchestrator.NetworkUp sampleOrchEnv sampleOrchestratorFailingDatabase "foo" =
      ([.log "info" "network up process started", .GetNetworkByName "foo",
        .log "info" "network retrieved from databasenetwork.db_id7",
        .Register { NetworkID := "foo", JobID := "job-1", Ports := ⟨"", "", ""⟩,
                    DockerID := "", ContainerName := "", DataDir := "" },
        .log "info" "network registered, creating node",
        .CreateNode sampleNewNode ⟨some "/key/swarm/psk/1.0.0/", none, false⟩,
        .log "info" "node created",
        .UpdateNetwork
          { ID := 7, Name := "foo", APIURL := "10.0.0.5:5055",
            SwarmKey := "/key/swarm/psk/1.0.0/", Activated := 1541116800 }],
       some "failed to update network \x27foo\x27: connection refused") := by
  decide

end Nexus
